import Mathlib

/-!
Verification of the cordl model-building and layout core against its
natural-language specification.  The Rust sources under `src/src/generate`
are shallowly embedded: pure functions become Lean functions, the mutation
of `CppTypeRequirements` becomes an explicit state monad, `u32` arithmetic
is `Nat` with explicit masking, and panicking paths return `none`.
-/

set_option maxRecDepth 4000

namespace Cordl

/-! ## Shared helpers -/

/-- `u32::MAX`. -/
def U32_MAX : Nat := 4294967295

/-- Lower-case hexadecimal rendering of a natural number, as Rust's `{:x}`. -/
def hexStr (n : Nat) : String := (Nat.toDigits 16 n).asString

/-- Bitwise `!m` on `u32`, valid for `m ≤ u32::MAX` (the complement within 32 bits). -/
def bnot32 (m : Nat) : Nat := U32_MAX - m

/-- Stable insertion used by `sorted_by`: an element is placed before the first
element strictly greater than it, hence after all earlier equal elements,
matching the stability guarantee of Rust's `sorted_by`. -/
def insertOrd (cmp : α → α → Ordering) (x : α) : List α → List α
  | [] => [x]
  | y :: ys => if cmp y x = Ordering.lt then y :: insertOrd cmp x ys else x :: y :: ys

/-- Stable sort by a comparator, modelling itertools' `sorted_by`. -/
def sorted_by (cmp : α → α → Ordering) : List α → List α
  | [] => []
  | x :: xs => insertOrd cmp x (sorted_by cmp xs)

/-- `Ord` comparison of `Option<u32>` as in Rust: `None` sorts before `Some`. -/
def cmpOptNat : Option Nat → Option Nat → Ordering
  | none, none => Ordering.eq
  | none, some _ => Ordering.lt
  | some _, none => Ordering.gt
  | some x, some y => compare x y

/-! ## Metadata model (brocolib projections, as consumed by the generator) -/

/-- The il2cpp element-type tag (`Il2CppTypeEnum`), restricted to the
constructors the generator matches on, plus `Byref`/`Sentinel` to stand for
tags that fall into the wildcard arm. -/
inductive Il2CppTypeEnum where
  | Void | Boolean | Char | I1 | U1 | I2 | U2 | I4 | U4 | I8 | U8
  | R4 | R8 | String | Ptr | Byref | Valuetype | Class | Var | Array
  | Genericinst | Typedbyref | I | U | Object | Szarray | Mvar | Sentinel
deriving DecidableEq, Repr

/-- `brocolib::runtime_metadata::TypeData`. -/
inductive TypeData where
  | TypeDefinitionIndex (tdi : Nat)
  | TypeIndex (idx : Nat)
  | GenericClassIndex (idx : Nat)
  | GenericParameterIndex (idx : Nat)
deriving DecidableEq, Repr

/-- `brocolib::runtime_metadata::Il2CppType`.  The `is_static` /
`is_constant` / `is_param_optional` flags are attribute-derived extension
methods (`type_extensions.rs`, not under `src/`); they are modelled as fields
of the type record. -/
structure Il2CppType where
  ty : Il2CppTypeEnum
  data : TypeData
  valuetype : Bool := false
  byref : Bool := false
  is_static : Bool := false
  is_constant : Bool := false
  is_param_optional : Bool := false
deriving DecidableEq, Repr

/-- `Il2CppTypeDefinition`, projected to the flags and links the generator
reads.  The extension predicates (`is_value_type`, `is_enum_type`,
`is_interface`, `is_explicit_layout`, `full_name`) live in the absent
`type_extensions.rs` and are modelled as fields; `parent_index = none`
models the `u32::MAX` sentinel. -/
structure Il2CppTypeDefinition where
  is_value_type : Bool := false
  is_enum_type : Bool := false
  is_interface : Bool := false
  is_explicit_layout : Bool := false
  parent_index : Option Nat := none
  full_name : String := ""
  field_count : Nat := 0
deriving DecidableEq, Repr

/-- `Il2CppGenericClass` (fields used by the generator). -/
structure GenericClass where
  type_index : Nat
  class_inst_idx : Option Nat
deriving DecidableEq, Repr

/-- `Il2CppGenericParameter` (fields used by the generator).  `container_index`
locates the owning generic container. -/
structure GenericParam where
  name_index : Nat
  num : Nat
  name : String
  container_index : Nat
deriving DecidableEq, Repr

/-- `Il2CppGenericContainer`: `is_method` models `is_method != u32::MAX`. -/
structure GenericContainer where
  is_method : Bool
  owner_index : Nat
  parameters : List GenericParam
deriving DecidableEq, Repr

/-- `Il2CppTypeDefinitionSizes` entry of the metadata registration
(`type_definition_sizes`); only `instance_size` is read. -/
structure TypeDefinitionSize where
  instance_size : Nat
deriving DecidableEq, Repr

/-- The read-only metadata snapshot, restricted to the tables the embedded
functions dereference. -/
structure Metadata where
  types : List Il2CppType := []
  type_definitions : List Il2CppTypeDefinition := []
  generic_classes : List GenericClass := []
  generic_insts : List (List Nat) := []
  generic_parameters : List GenericParam := []
  generic_containers : List GenericContainer := []
  blacklisted_types : List Nat := []
  object_size : Nat := 16
deriving DecidableEq, Repr

/-- `CsTypeTag` (its source `cs_type_tag.rs` is not under `src/`): a type
definition, or a generic instantiation carrying its definition index and the
generic-class index, as used by the dependency tracker. -/
inductive CsTypeTag where
  | TypeDefinitionIndex (tdi : Nat)
  | GenericInstantiation (tdi : Nat) (inst : Nat)
deriving DecidableEq, Repr

/-- `TypeData -> CsTypeTag` conversion (`typ_tag.into()`); panics (none) for
data kinds that carry no definition. -/
def CsTypeTag.ofTypeData : TypeData → Option CsTypeTag
  | TypeData.TypeDefinitionIndex tdi => some (CsTypeTag.TypeDefinitionIndex tdi)
  | _ => none

/-- `CsTypeTag::from_type_data(data, metadata)`: resolves a generic-class
index through the metadata to its definition index. -/
def CsTypeTag.from_type_data (data : TypeData) (md : Metadata) : Option CsTypeTag :=
  match data with
  | TypeData.TypeDefinitionIndex tdi => some (CsTypeTag.TypeDefinitionIndex tdi)
  | TypeData.GenericClassIndex e =>
    match md.generic_classes.get? e with
    | none => none
    | some gc =>
      match md.types.get? gc.type_index with
      | none => none
      | some gtd =>
        match gtd.data with
        | TypeData.TypeDefinitionIndex tdi => some (CsTypeTag.GenericInstantiation tdi e)
        | _ => none
  | _ => none

/-- The definition index a tag refers to (`tag.get_tdi()`). -/
def CsTypeTag.get_tdi : CsTypeTag → Nat
  | CsTypeTag.TypeDefinitionIndex tdi => tdi
  | CsTypeTag.GenericInstantiation tdi _ => tdi

/-! ## Opaque wrapper handle names (constants of `cpp_type.rs`) -/

def VALUE_WRAPPER_TYPE : String := "::bs_hook::ValueType"

def ENUM_WRAPPER_TYPE : String := "::bs_hook::EnumType"

def INTERFACE_WRAPPER_TYPE : String := "::cordl_internals::InterfaceW"

def IL2CPP_OBJECT_TYPE : String := "Il2CppObject"

/-- `wrapper_type_for_tdi` of `cpp_type.rs`: the opaque handle substituted for
a deny-listed type, by category. -/
def wrapper_type_for_tdi (td : Il2CppTypeDefinition) : String :=
  if td.is_enum_type then ENUM_WRAPPER_TYPE
  else if td.is_value_type then VALUE_WRAPPER_TYPE
  else if td.is_interface then INTERFACE_WRAPPER_TYPE
  else IL2CPP_OBJECT_TYPE

/-! ## `cs_fields.rs` : field-layout engine -/

namespace cs_fields

/-- `CsField` as constructed inside `cs_fields.rs` (string-typed member with a
plain byte offset).  The source field `instance` is a Lean keyword and is
rendered `isInstance`. -/
structure CsField where
  name : String
  field_ty : String
  offset : Nat := 0
  isInstance : Bool := true
  is_private : Bool := false
  readonly : Bool := false
  const_expr : Bool := false
  value : Option String := none
  brief_comment : Option String := none
deriving DecidableEq, Repr

/-- `FieldInfo` of `cs_fields.rs`.  The borrowed `field` reference is kept as
the field's name (the only datum read from it), `field_type` as the value of
the referenced `Il2CppType`. -/
structure FieldInfo where
  cpp_field : CsField
  field_name : String := ""
  field_type : Il2CppType := { ty := Il2CppTypeEnum.I4, data := TypeData.TypeIndex 0 }
  is_constant : Bool := false
  is_static : Bool := false
  is_pointer : Bool := false
  offset : Option Nat := none
  size : Nat := 0
deriving DecidableEq, Repr

/-- The member list entries produced by the layout engine.  `NestedStruct` and
`NestedUnion` are flattened into constructor arguments (in source order) so
that the member tree is a single inductive. -/
inductive CsMember where
  | FieldDecl (f : CsField)
  | Property (name : String)
  | NestedStruct (declaring_name : String) (base_type : Option String)
      (declarations : List CsMember) (brief_comment : Option String)
      (is_class : Bool) (is_enum : Bool) (is_private : Bool) (packing : Option Nat)
  | NestedUnion (brief_comment : Option String) (declarations : List CsMember)
      (offset : Nat) (is_private : Bool)
deriving Repr

/-- `FieldInfoSet`. -/
structure FieldInfoSet where
  fields : List (List FieldInfo)
  size : Nat
  offset : Nat
deriving Repr

/-- `FieldInfoSet::max`. -/
def FieldInfoSet.max (s : FieldInfoSet) : Nat := s.size + s.offset

/-- `field_collision_check`: sort by offset and detect a field starting below
the running end offset. -/
def field_collision_check (instance_fields : List FieldInfo) : Bool :=
  let sorted := sorted_by (fun a b => cmpOptNat a.offset b.offset) instance_fields
  (sorted.foldl
    (fun (acc : Bool × Nat) field =>
      let offset := field.offset.getD U32_MAX
      if offset < acc.2 then (true, acc.2) else (acc.1, offset + field.size))
    (false, 0)).1

/-- `accumulated_size` (local fn of `make_or_unionize_fields`). -/
def accumulated_size (fields : List FieldInfo) : Nat := (fields.map (·.size)).sum

/-- State of the grouping fold in `make_or_unionize_fields`.  The `HashMap`
`offset_map` is modelled as an insertion-ordered association list (the real
map's iteration order is unspecified). -/
structure UnionizeState where
  map : List (Nat × FieldInfoSet)
  current_max : Nat
  current_offset : Nat
deriving Repr

/-- `offset_map.entry(key).or_insert_with(init)` followed by the in-place
mutation `f` of the entry. -/
def updateEntry (map : List (Nat × FieldInfoSet)) (key : Nat) (init : FieldInfoSet)
    (f : FieldInfoSet → FieldInfoSet) : List (Nat × FieldInfoSet) :=
  match map with
  | [] => [(key, f init)]
  | (k, s) :: rest =>
    if k = key then (k, f s) :: rest else (k, s) :: updateEntry rest key init f

/-- One step of the grouping fold of `make_or_unionize_fields`. -/
def unionizeStep (st : UnionizeState) (field : FieldInfo) : UnionizeState :=
  let offset := field.offset.getD U32_MAX
  let size := field.size
  let mx := offset + size
  let (current_offset, current_max) :=
    if mx > st.current_max then (offset, mx) else (st.current_offset, st.current_max)
  let map := updateEntry st.map current_offset
    { fields := [], offset := current_offset, size := size }
    (fun cs =>
      let cs := if current_max > cs.max then { cs with size := size } else cs
      match cs.fields.getLast? with
      | some last =>
        if current_offset + accumulated_size last = offset then
          { cs with fields := cs.fields.dropLast ++ [last ++ [field]] }
        else
          { cs with fields := cs.fields ++ [[field]] }
      | none => { cs with fields := cs.fields ++ [[field]] })
  { map := map, current_max := current_max, current_offset := current_offset }

/-- Emission of one `FieldInfoSet` (the closure mapped over
`offset_map.into_values()`). -/
def emitFieldSet (field_set : FieldInfoSet) : List CsMember :=
  if field_set.fields.length = 1 then
    (field_set.fields.foldr (· ++ ·) []).map (fun d => CsMember.FieldDecl d.cpp_field)
  else
    let declarations := (field_set.fields.map (fun struct_contents =>
      if struct_contents.length = 1 then
        struct_contents.map (fun d => CsMember.FieldDecl d.cpp_field)
      else
        [CsMember.NestedStruct "" none
          (struct_contents.map (fun d => CsMember.FieldDecl d.cpp_field))
          (some ("Anonymous struct offset 0x" ++ hexStr field_set.offset ++
                 ", size 0x" ++ hexStr field_set.size))
          false false false none])).foldr (· ++ ·) []
    [CsMember.NestedUnion
      (some ("Anonymous union offset 0x" ++ hexStr field_set.offset ++
             ", size 0x" ++ hexStr field_set.size))
      declarations field_set.offset false]

/-- `make_or_unionize_fields`: no collision emits plain fields; otherwise the
fields are sorted by size descending then (stably) by offset, grouped by a
running maximum extent, and each group is emitted as a field, a struct, or a
union of branches. -/
def make_or_unionize_fields (instance_fields : List FieldInfo) : List CsMember :=
  if !field_collision_check instance_fields then
    instance_fields.map (fun d => CsMember.FieldDecl d.cpp_field)
  else
    let sorted :=
      sorted_by (fun a b => cmpOptNat a.offset b.offset)
        ((sorted_by (fun a b => compare a.size b.size) instance_fields).reverse)
    let st := sorted.foldl unionizeStep { map := [], current_max := 0, current_offset := 0 }
    (st.map.map (fun kv => emitFieldSet kv.2)).foldr (· ++ ·) []

/-- `field_into_offset_structs`: the two sibling structs (packed, aligned)
synthesized for one explicit-layout field; panics (`none`) on a field without
an offset. -/
def field_into_offset_structs (_min_offset : Nat) (field : FieldInfo) :
    Option (CsMember × CsMember) :=
  match field.offset with
  | none => none
  | some actual_offset =>
    let padding := actual_offset
    let packed_padding_cpp_name := field.cpp_field.name ++ "_padding[0x" ++ hexStr padding ++ "]"
    let alignment_padding_cpp_name :=
      field.cpp_field.name ++ "_padding_forAlignment[0x" ++ hexStr padding ++ "]"
    let alignment_cpp_name := field.cpp_field.name ++ "_forAlignment"
    let packed_padding_field : CsField :=
      { brief_comment := some ("Padding field 0x" ++ hexStr padding)
        const_expr := false
        name := packed_padding_cpp_name
        field_ty := "uint8_t"
        offset := actual_offset
        isInstance := true
        is_private := false
        readonly := false
        value := none }
    let alignment_padding_field : CsField :=
      { brief_comment := some ("Padding field 0x" ++ hexStr padding ++ " for alignment")
        const_expr := false
        name := alignment_padding_cpp_name
        field_ty := "uint8_t"
        offset := actual_offset
        isInstance := true
        is_private := false
        readonly := false
        value := none }
    let alignment_field : CsField := { field.cpp_field with name := alignment_cpp_name, is_private := false }
    let packed_field : CsField := { field.cpp_field with is_private := false }
    let packed_struct := CsMember.NestedStruct "" none
      [CsMember.FieldDecl packed_padding_field, CsMember.FieldDecl packed_field]
      none false false false (some 1)
    let alignment_struct := CsMember.NestedStruct "" none
      [CsMember.FieldDecl alignment_padding_field, CsMember.FieldDecl alignment_field]
      none false false false none
    some (packed_struct, alignment_struct)

/-- The `min().unwrap_or(0)` of the offset list. -/
def min_offset_of (offsets : List Nat) : Nat :=
  match offsets with
  | [] => 0
  | x :: xs => xs.foldl Nat.min x

/-- `pack_fields_into_single_union`: every field's pair of offset structs,
flattened in order into one union at the minimum offset. -/
def pack_fields_into_single_union (fields : List FieldInfo) : Option CsMember :=
  match fields.mapM (fun f => f.offset) with
  | none => none
  | some offsets =>
    match fields.mapM (fun field =>
      (field_into_offset_structs (min_offset_of offsets) field).map (fun s => [s.1, s.2])) with
    | none => none
    | some packed_structs =>
      some (CsMember.NestedUnion
        (some "Explicitly laid out type with union based offsets")
        (packed_structs.foldr (· ++ ·) [])
        (min_offset_of offsets) true)

end cs_fields

/-! ## `cs_fields.rs` : const / instance field handlers

These functions mutate `cpp_type` (its member list and include requirements);
the mutated state is threaded explicitly and panics return `none`. -/

namespace cs_fields

/-- `is_primitive_builtin` on the element-type tag.  Modelled from the spec
(`type_extensions.rs` is not under `src/`): the numeric / bool / char / void /
string kinds map to fixed built-in names. -/
def is_primitive_builtin : Il2CppTypeEnum → Bool
  | Il2CppTypeEnum.Void | Il2CppTypeEnum.Boolean | Il2CppTypeEnum.Char
  | Il2CppTypeEnum.I1 | Il2CppTypeEnum.U1 | Il2CppTypeEnum.I2 | Il2CppTypeEnum.U2
  | Il2CppTypeEnum.I4 | Il2CppTypeEnum.U4 | Il2CppTypeEnum.I8 | Il2CppTypeEnum.U8
  | Il2CppTypeEnum.I | Il2CppTypeEnum.U
  | Il2CppTypeEnum.R4 | Il2CppTypeEnum.R8 | Il2CppTypeEnum.String => true
  | _ => false

/-- The slice of the context collection read by `handle_const_fields`:
whether a tag has a known generated type and whether it is an enum, and the
context (an id) a tag belongs to. -/
structure CsCtx where
  cpp_types : List (CsTypeTag × Bool) := []
  contexts : List (CsTypeTag × Nat) := []
deriving DecidableEq, Repr

def CsCtx.get_cpp_type_is_enum (c : CsCtx) (t : CsTypeTag) : Option Bool :=
  List.lookup t c.cpp_types

def CsCtx.get_context (c : CsCtx) (t : CsTypeTag) : Option Nat :=
  List.lookup t c.contexts

/-- The mutated slice of the `CsType` under construction: its member list and
the impl-include requirement (context ids added by `add_impl_include`). -/
structure CsTypeState where
  members : List CsMember := []
  impl_includes : List Nat := []
deriving Repr

/-- `handle_const_fields`: walks the constant fields, unconditionally unwraps
the decoded default value (panic -> `none`), and emits either a commented
plain declaration (non-primitive type, with an extra impl include for enum
constants) or a `constexpr` declaration carrying the value. -/
def handle_const_fields (cpp_type : CsTypeState) (fields : List FieldInfo)
    (ctx_collection : CsCtx) (metadata : Metadata) (t : Il2CppTypeDefinition) :
    Option CsTypeState :=
  if t.field_count = 0 then some cpp_type
  else
    (fields.filter (·.is_constant)).foldlM
      (fun st field_info =>
        let f_type := field_info.field_type
        let f_name := field_info.field_name
        let f_offset := field_info.offset.getD U32_MAX
        let f_size := field_info.size
        match field_info.cpp_field.value with
        | none => none
        | some def_value =>
          match is_primitive_builtin f_type.ty with
          | false =>
            let field_decl : CsField :=
              { field_info.cpp_field with
                  isInstance := false
                  readonly := f_type.is_constant
                  value := none
                  const_expr := false
                  brief_comment := some ("Field " ++ f_name ++ " value: " ++ def_value) }
            let enum_step : Option CsTypeState :=
              if f_type.valuetype ∧ f_type.ty = Il2CppTypeEnum.Valuetype then
                match CsTypeTag.from_type_data f_type.data metadata with
                | none => none
                | some field_cpp_tag =>
                  let field_cpp_td_tag := CsTypeTag.TypeDefinitionIndex field_cpp_tag.get_tdi
                  let field_cpp_type := ctx_collection.get_cpp_type_is_enum field_cpp_td_tag
                  if field_cpp_type.getD false then
                    match ctx_collection.get_context field_cpp_td_tag with
                    | none => none
                    | some c => some { st with impl_includes := st.impl_includes ++ [c] }
                  else some st
              else some st
            match enum_step with
            | none => none
            | some st =>
              some { st with members := st.members ++ [CsMember.FieldDecl field_decl] }
          | true =>
            let field_decl : CsField :=
              { field_info.cpp_field with
                  isInstance := false
                  const_expr := true
                  readonly := f_type.is_constant
                  brief_comment := some ("Field " ++ f_name ++ " offset 0x" ++ hexStr f_offset ++
                                         " size 0x" ++ hexStr f_size)
                  value := some def_value }
            some { st with members := st.members ++ [CsMember.FieldDecl field_decl] })
      cpp_type

/-- The filter of `handle_instance_fields`: only fields with an offset that
are neither static nor constant take part in instance layout. -/
def instance_field_decls (fields : List FieldInfo) : List FieldInfo :=
  fields.filter (fun f => f.offset.isSome && !f.is_static && !f.is_constant)

/-- `handle_instance_fields`: filters to instance fields, renames fields that
collide with an existing property, then packs an explicit-layout type into a
single union and otherwise emits plain field declarations. -/
def handle_instance_fields (cpp_type : CsTypeState) (fields : List FieldInfo)
    (t : Il2CppTypeDefinition) : Option CsTypeState :=
  if t.field_count = 0 then some cpp_type
  else
    let property_exists := fun to_find =>
      cpp_type.members.any (fun m => match m with
        | CsMember.Property p => p = to_find
        | _ => false)
    let resulting_fields := (instance_field_decls fields).map (fun d =>
      let f := d.cpp_field
      let f := if property_exists f.name then
          { f with name := "_cordl_" ++ f.name, is_private := true }
        else f
      { d with cpp_field := f })
    if t.is_explicit_layout then
      match pack_fields_into_single_union resulting_fields with
      | none => none
      | some u => some { cpp_type with members := cpp_type.members ++ [u] }
    else
      some { cpp_type with
              members := cpp_type.members ++
                resulting_fields.map (fun m => CsMember.FieldDecl m.cpp_field) }

end cs_fields

/-! ## `cs_type.rs` : type-model builder (parents, field table walk) -/

namespace cs_type

/-- `CsField` as constructed by `make_fields` in `cs_type.rs` (this snapshot
carries the raw `TypeData` as the field type and an optional offset; decoded
default values are kept as their rendering).  The source field `instance` is
a Lean keyword and is rendered `isInstance`. -/
structure CsField where
  name : String
  field_ty : TypeData
  offset : Option Nat
  isInstance : Bool
  readonly : Bool
  brief_comment : Option String
  value : Option String
  const_expr : Bool
deriving DecidableEq, Repr

/-- `FieldInfo` as built by `make_fields` in `cs_type.rs`. -/
structure FieldInfo where
  cs_field : CsField
  field_name : String
  field_type : Il2CppType
  is_constant : Bool
  is_static : Bool
  is_pointer : Bool
  offset : Option Nat
  size : Nat
deriving DecidableEq, Repr

/-- `get_offset` (local fn of `make_fields`): static/constant fields have no
offset; otherwise the hotfix-computed offset (`iter.next()`) wins over the
metadata table entry, and value types subtract the object-header size. -/
def get_offset (f_type : Il2CppType) (iter_next : Option Nat) (field_offsets_i : Nat)
    (object_size : Nat) (t : Il2CppTypeDefinition) : Option Nat :=
  if f_type.is_static || f_type.is_constant then none
  else
    let offset := iter_next.getD field_offsets_i
    if t.is_value_type ∧ offset ≥ object_size then some (offset - object_size)
    else some offset

/-- The per-field body of the `filter_map` in `make_fields`: looks up the
field's type, drops fields of blacklisted types on reference types, asserts
that a decoded default value implies a parameter-optional type (panic ->
outer `none`), and builds the `FieldInfo`.  `some none` models the
`filter_map` skip, `some (some fi)` a produced entry. -/
def field_type_blacklisted (metadata : Metadata) (f_type : Il2CppType) : Bool :=
  match f_type.data with
  | TypeData.TypeDefinitionIndex field_tdi => metadata.blacklisted_types.contains field_tdi
  | _ => false

def make_field_entry (metadata : Metadata) (self_is_value_type self_is_enum_type : Bool)
    (f_name : String) (type_index : Nat) (f_offset : Option Nat) (f_size : Nat)
    (def_value : Option String) : Option (Option FieldInfo) :=
  match metadata.types.get? type_index with
  | none => none
  | some f_type =>
    if field_type_blacklisted metadata f_type && !self_is_value_type && !self_is_enum_type then
      some none
    else if def_value.isSome ∧ ¬f_type.is_param_optional then none
    else
      let cpp_field_decl : CsField :=
        { name := f_name
          field_ty := f_type.data
          offset := f_offset
          isInstance := !f_type.is_static && !f_type.is_constant
          readonly := f_type.is_constant
          brief_comment := some ("Field " ++ f_name ++ ", offset: 0x" ++
                                 hexStr (f_offset.getD U32_MAX) ++ ", size: 0x" ++ hexStr f_size)
          value := def_value
          const_expr := false }
      some (some
        { cs_field := cpp_field_decl
          field_name := f_name
          field_type := f_type
          is_constant := f_type.is_constant
          is_static := f_type.is_static
          is_pointer := f_type.byref || !f_type.valuetype
          offset := f_offset
          size := f_size })

/-- `make_parents`: no parent index leaves the parent unset; otherwise the
parent type is looked up (panic -> `none`), and the parent reference is set
only when the type is not a value type or is an enum type, after asserting
the parent is class/generic-instance/object shaped. -/
def make_parents (metadata : Metadata) (t : Il2CppTypeDefinition) :
    Option (Option CsTypeTag) :=
  match t.parent_index with
  | none => some none
  | some parent_index =>
    match metadata.types.get? parent_index with
    | none => none
    | some parent_type =>
      match CsTypeTag.from_type_data parent_type.data metadata with
      | none => none
      | some parent_ty =>
        if ¬t.is_value_type ∨ t.is_enum_type then
          if parent_type.ty = Il2CppTypeEnum.Class ∨
             parent_type.ty = Il2CppTypeEnum.Genericinst ∨
             parent_type.ty = Il2CppTypeEnum.Object then
            some (some parent_ty)
          else none
        else some none

/-- The parent gate of `make_cs_type` (lines 244-256): `some false` models
"excluded from generation" (`return None`), `some true` proceeding to a
model, `none` the panic on a dangling parent index. -/
def make_cs_type_parent_gate (metadata : Metadata) (t : Il2CppTypeDefinition) :
    Option Bool :=
  match t.parent_index with
  | none =>
    if ¬t.is_interface ∧ t.full_name ≠ "System.Object" then some false else some true
  | some parent_index =>
    if (metadata.types.get? parent_index).isNone then none else some true

end cs_type

/-! ## `cpp_type.rs` : size reconciliation (`create_size_padding`) -/

namespace cpp_type

/-- `offsets::SizeInfo` (its source is not under `src/`); the fields read by
`create_size_padding`. -/
structure SizeInfo where
  instance_size : Nat
  natural_alignment : Nat
  calculated_instance_size : Nat
deriving DecidableEq, Repr

/-- `CppFieldDecl` as constructed in `cpp_type.rs`.  The source field
`instance` is a Lean keyword and is rendered `isInstance`. -/
structure CppFieldDecl where
  cpp_name : String
  field_ty : String
  offset : Option Nat
  isInstance : Bool
  readonly : Bool
  const_expr : Bool
  value : Option String
  brief_comment : Option String
  is_private : Bool
deriving DecidableEq, Repr

/-- The packing-derivation table (`closest_packing`). -/
def closest_packing : Nat → Nat
  | 0 => 0
  | 1 => 1
  | 2 => 2
  | 3 => 4
  | 4 => 4
  | _ => 8

/-- The name of the emitted trailing pad field. -/
def padName (packed_remaining_size : Nat) : String :=
  "_cordl_size_padding[0x" ++ hexStr packed_remaining_size ++ "]"

/-- The local `aligned_calculated_size` of `create_size_padding`: under the
`il2cpp_v29` cfg the computed size plus the alignment with the low alignment
bits cleared (`u32` arithmetic), under `il2cpp_v31` the computed size
itself. -/
def aligned_calculated_size (v29 : Bool) (si : SizeInfo) : Nat :=
  if v29 then
    match si.natural_alignment with
    | 0 => si.calculated_instance_size
    | alignment =>
      ((si.calculated_instance_size + alignment) % (U32_MAX + 1)) &&& bnot32 (alignment - 1)
  else si.calculated_instance_size

/-- The local `remaining_size`: `abs_diff` of the reported and computed
sizes. -/
def remaining_size_of (si : SizeInfo) : Nat :=
  Nat.dist si.instance_size si.calculated_instance_size

/-- The local `packed_remaining_size`: the remaining size masked down by the
packing (specified, or derived from the computed size by the table). -/
def packed_remaining_size (packing : Option Nat) (si : SizeInfo) : Nat :=
  if packing.getD (closest_packing si.calculated_instance_size) = 0 then remaining_size_of si
  else remaining_size_of si &&&
    bnot32 (packing.getD (closest_packing si.calculated_instance_size) - 1)

/-- `create_size_padding`, returning the single trailing pad declaration
pushed onto `self.declarations`, if any.  `v29` selects the
`il2cpp_v29` cfg branch of the alignment adjustment (`il2cpp_v31` otherwise);
`type_definition_sizes` is the optional metadata registration table. -/
def create_size_padding (v29 : Bool) (type_definition_sizes : Option (List TypeDefinitionSize))
    (tdi : Nat) (packing : Option Nat) (size_info : Option SizeInfo) :
    Option CppFieldDecl :=
  match type_definition_sizes with
  | none => none
  | some sizes =>
    match sizes.get? tdi with
    | none => none
    | some metadata_size =>
      if metadata_size.instance_size = 0 ∨ metadata_size.instance_size = U32_MAX then none
      else
        match size_info with
        | none => none
        | some si =>
          if aligned_calculated_size v29 si = si.instance_size then none
          else
            if packed_remaining_size packing si = 0 then none
            else some
              { cpp_name := padName (packed_remaining_size packing si)
                field_ty := "uint8_t"
                offset := some si.instance_size
                isInstance := true
                readonly := false
                const_expr := false
                value := none
                brief_comment := some ("Size padding 0x" ++ hexStr si.instance_size ++
                  " - 0x" ++ hexStr si.calculated_instance_size ++ " = 0x" ++
                  hexStr (remaining_size_of si) ++ ", packed as 0x" ++
                  hexStr (packed_remaining_size packing si))
                is_private := false }

/-! ### Name resolution (`cppify_name_il2cpp_recurse`) -/

/-- `NameComponents` (`data/name_components.rs` is not under `src/`; fields
modelled from their uses).  The source field `namespace` is a Lean keyword
and is rendered `namespaze`. -/
structure NameComponents where
  name : String
  namespaze : Option String := none
  declaring_types : Option (List String) := none
  generics : Option (List String) := none
  is_pointer : Bool := false
deriving DecidableEq, Repr

/-- `String::into::<NameComponents>()`: a bare name. -/
def NameComponents.ofString (s : String) : NameComponents := { name := s }

/-- Modelled from the spec: `combine_all` renders a structured name
(namespace, declaring types, base name, generic arguments, pointer). -/
def NameComponents.combineAll (n : NameComponents) : String :=
  (match n.namespaze with
    | some ns => ns ++ "::"
    | none => "") ++
  (match n.declaring_types with
    | some ds => String.intercalate "::" ds ++ "::"
    | none => "") ++
  n.name ++
  (match n.generics with
    | some gs => "<" ++ String.intercalate ", " gs ++ ">"
    | none => "") ++
  (if n.is_pointer then "*" else "")

/-- `TypeUsage` (from `metadata.rs`, not under `src/`): the usage site of a
resolution, forwarded through recursion. -/
inductive TypeUsage where
  | TypeName | FieldName | GenericArg | Parameter | ReturnType
deriving DecidableEq, Repr

/-- `CppInclude` constructors as used by the resolver: a typedef or type-impl
include of a context (identified by an id), a system header, or an exact
path. -/
inductive CppInclude where
  | context_typedef (ctx : Nat)
  | context_typeimpl (ctx : Nat)
  | system (path : String)
  | exact (path : String)
deriving DecidableEq, Repr

/-- `CppForwardDeclare` (from `cpp_members.rs`, not under `src/`; fields
modelled from `members.rs` and `from_cpp_type`). -/
structure CppForwardDeclare where
  is_struct : Bool
  namespaze : Option String
  name : String
  templates : Option (List String)
  literals : Option (List String)
deriving DecidableEq, Repr

/-- The projection of another generated `CppType` stored in the context
collection, as read by the resolver. -/
structure CppTypeLite where
  self_tag : CsTypeTag
  nested : Bool := false
  cpp_namespace : String := ""
  name : String := ""
  cpp_name_components : NameComponents
  is_value_type : Bool := false
  cpp_template : Option (List String) := none
  generic_instantiation_args : Option (List String) := none
deriving DecidableEq, Repr

/-- `CppForwardDeclare::from_cpp_type`. -/
def CppForwardDeclare.from_cpp_type (t : CppTypeLite) : CppForwardDeclare :=
  { is_struct := t.is_value_type
    namespaze := if t.nested then none else some t.cpp_namespace
    name := t.name
    templates := t.cpp_template
    literals := t.generic_instantiation_args }

/-- `CppContextCollection`, modelled as association lists: the context id of
a tag, the generated type of a tag, and the root context tag of a tag
(identity when unregistered). -/
structure CppContextCollection where
  contexts : List (CsTypeTag × Nat) := []
  cpp_types : List (CsTypeTag × CppTypeLite) := []
  root_tags : List (CsTypeTag × CsTypeTag) := []
deriving DecidableEq, Repr

def CppContextCollection.get_context (c : CppContextCollection) (t : CsTypeTag) : Option Nat :=
  List.lookup t c.contexts

def CppContextCollection.get_cpp_type (c : CppContextCollection) (t : CsTypeTag) :
    Option CppTypeLite :=
  List.lookup t c.cpp_types

def CppContextCollection.get_context_root_tag (c : CppContextCollection) (t : CsTypeTag) :
    CsTypeTag :=
  (List.lookup t c.root_tags).getD t

/-- `CppTypeRequirements`: the four `HashSet` accumulators, as finite sets. -/
structure CppTypeRequirements where
  forward_declares : Finset (CppForwardDeclare × CppInclude) := ∅
  required_def_includes : Finset CppInclude := ∅
  required_impl_includes : Finset CppInclude := ∅
  depending_types : Finset CsTypeTag := ∅
deriving DecidableEq

/-- The empty accumulator (`Default`). -/
def CppTypeRequirements.empty : CppTypeRequirements := {}

/-- Componentwise union of accumulators. -/
def CppTypeRequirements.union (a b : CppTypeRequirements) : CppTypeRequirements :=
  { forward_declares := a.forward_declares ∪ b.forward_declares
    required_def_includes := a.required_def_includes ∪ b.required_def_includes
    required_impl_includes := a.required_impl_includes ∪ b.required_impl_includes
    depending_types := a.depending_types ∪ b.depending_types }

def CppTypeRequirements.add_forward_declare (r : CppTypeRequirements)
    (cpp_data : CppForwardDeclare × CppInclude) : CppTypeRequirements :=
  { r with forward_declares := insert cpp_data r.forward_declares }

/-- `add_def_include`: records the dependency tag (when a type is given) and
the include. -/
def CppTypeRequirements.add_def_include (r : CppTypeRequirements)
    (cpp_type : Option CsTypeTag) (cpp_include : CppInclude) : CppTypeRequirements :=
  { r with
      depending_types := match cpp_type with
        | some t => insert t r.depending_types
        | none => r.depending_types
      required_def_includes := insert cpp_include r.required_def_includes }

def CppTypeRequirements.add_impl_include (r : CppTypeRequirements)
    (cpp_type : Option CsTypeTag) (cpp_include : CppInclude) : CppTypeRequirements :=
  { r with
      depending_types := match cpp_type with
        | some t => insert t r.depending_types
        | none => r.depending_types
      required_impl_includes := insert cpp_include r.required_impl_includes }

def CppTypeRequirements.add_dependency_tag (r : CppTypeRequirements) (tag : CsTypeTag) :
    CppTypeRequirements :=
  { r with depending_types := insert tag r.depending_types }

def CppTypeRequirements.needs_int_include (r : CppTypeRequirements) : CppTypeRequirements :=
  r.add_def_include none (CppInclude.system "cstdint")

def CppTypeRequirements.needs_math_include (r : CppTypeRequirements) : CppTypeRequirements :=
  r.add_def_include none (CppInclude.system "cmath")

def CppTypeRequirements.needs_stringw_include (r : CppTypeRequirements) : CppTypeRequirements :=
  r.add_def_include none (CppInclude.exact "beatsaber-hook/shared/utils/typedefs-string.hpp")

def CppTypeRequirements.needs_arrayw_include (r : CppTypeRequirements) : CppTypeRequirements :=
  r.add_def_include none (CppInclude.exact "beatsaber-hook/shared/utils/typedefs-array.hpp")

/-- The state monad threading the mutable `CppTypeRequirements`; a Rust panic
is `none`. -/
def ReqM (α : Type) : Type := CppTypeRequirements → Option (α × CppTypeRequirements)

instance : Monad ReqM where
  pure a := fun r => some (a, r)
  bind x f := fun r =>
    match x r with
    | none => none
    | some (a, r') => f a r'

/-- A panic / unwrap failure. -/
def ReqM.fail : ReqM α := fun _ => none

/-- A mutation of the requirement accumulator. -/
def ReqM.modReq (g : CppTypeRequirements → CppTypeRequirements) : ReqM Unit :=
  fun r => some ((), g r)

/-- The slice of the `CppType` under construction read by the resolver. -/
structure CppTypeSelf where
  self_tag : CsTypeTag
  cpp_name_components : NameComponents
  cpp_template : Option (List String) := none
  generic_instantiations_args_types : Option (List Nat) := none
  method_generic_instantiation_map : List (Nat × List Nat) := []
deriving DecidableEq, Repr

/-- The `Il2CppObject*` name substituted for deny-listed classes and
unimplemented multidimensional arrays. -/
def il2cpp_object_ptr : NameComponents :=
  { name := IL2CPP_OBJECT_TYPE, is_pointer := true, generics := none,
    namespaze := none, declaring_types := none }

/-- The primitive-support preamble at the top of the resolver: numeric kinds
require `cstdint`, floating kinds `cmath`. -/
def int_preamble (t : Il2CppTypeEnum) : ReqM Unit :=
  match t with
  | Il2CppTypeEnum.I1 | Il2CppTypeEnum.U1 | Il2CppTypeEnum.I2 | Il2CppTypeEnum.U2
  | Il2CppTypeEnum.I4 | Il2CppTypeEnum.U4 | Il2CppTypeEnum.I8 | Il2CppTypeEnum.U8
  | Il2CppTypeEnum.I | Il2CppTypeEnum.U => ReqM.modReq (·.needs_int_include)
  | Il2CppTypeEnum.R4 | Il2CppTypeEnum.R8 => ReqM.modReq (·.needs_math_include)
  | _ => pure ()

/-- The map over the concrete arguments of a generic instantiation: each
argument is resolved (value-typed at the decremented budget, reference-typed
at zero) and rendered. -/
def cppify_generic_args (md : Metadata) (f : Il2CppType → Nat → ReqM NameComponents)
    (next_include_depth : Nat) : List Nat → ReqM (List String)
  | [] => pure []
  | t :: ts => do
    match md.types.get? t with
    | none => ReqM.fail
    | some gen_arg_t =>
      let gen_include_detch := if gen_arg_t.valuetype then next_include_depth else 0
      let n ← f gen_arg_t gen_include_detch
      let rest ← cppify_generic_args md f next_include_depth ts
      pure (n.combineAll :: rest)

/-- `cppify_name_il2cpp_recurse`.  The first argument after the environment is
explicit fuel (an artifact of the embedding: the source recursion descends
through metadata table indices); every branch is translated from the source
match, with panics as `ReqM.fail`. -/
def cppify_name_il2cpp_recurse (md : Metadata) (ctx_collection : CppContextCollection)
    (self : CppTypeSelf) :
    Nat → Il2CppType → Nat → Option (List Nat) → TypeUsage → ReqM NameComponents
  | 0, _, _, _, _ => ReqM.fail
  | fuel + 1, typ, include_depth, declaring_generic_inst_types, typ_usage => do
    let add_include : Bool := decide (0 < include_depth)
    let next_include_depth := if add_include then include_depth - 1 else 0
    int_preamble typ.ty
    match typ.ty with
    | Il2CppTypeEnum.Object | Il2CppTypeEnum.Valuetype | Il2CppTypeEnum.Class
    | Il2CppTypeEnum.Typedbyref | Il2CppTypeEnum.I | Il2CppTypeEnum.U =>
      match CsTypeTag.ofTypeData typ.data with
      | none => ReqM.fail
      | some typ_cpp_tag =>
        if typ_cpp_tag = self.self_tag then
          pure self.cpp_name_components
        else do
          let sub ← (match typ.data with
            | TypeData.TypeDefinitionIndex tdi =>
              match md.type_definitions.get? tdi with
              | none => ReqM.fail
              | some td =>
                if tdi ∈ md.blacklisted_types then
                  if typ.ty = Il2CppTypeEnum.Class then
                    pure (some il2cpp_object_ptr)
                  else
                    pure (some (NameComponents.ofString (wrapper_type_for_tdi td)))
                else pure (none : Option NameComponents)
            | _ => pure (none : Option NameComponents))
          match sub with
          | some substituted => pure substituted
          | none => do
            if add_include then ReqM.modReq (·.add_dependency_tag typ_cpp_tag) else pure ()
            match ctx_collection.get_context typ_cpp_tag with
            | none => ReqM.fail
            | some to_incl =>
              let other_context_ty := ctx_collection.get_context_root_tag typ_cpp_tag
              let own_context_ty := ctx_collection.get_context_root_tag self.self_tag
              let typedef_incl := CppInclude.context_typedef to_incl
              let typeimpl_incl := CppInclude.context_typeimpl to_incl
              match ctx_collection.get_cpp_type typ_cpp_tag with
              | none => ReqM.fail
              | some to_incl_cpp_ty => do
                let own_context : Bool := decide (other_context_ty = own_context_ty)
                (if !own_context then
                  if add_include then do
                    ReqM.modReq (·.add_def_include (some to_incl_cpp_ty.self_tag) typedef_incl)
                    ReqM.modReq (·.add_impl_include (some to_incl_cpp_ty.self_tag) typeimpl_incl)
                  else
                    ReqM.modReq (·.add_forward_declare
                      (CppForwardDeclare.from_cpp_type to_incl_cpp_ty, typedef_incl))
                else pure ())
                pure to_incl_cpp_ty.cpp_name_components
    | Il2CppTypeEnum.Szarray => do
      ReqM.modReq (·.needs_arrayw_include)
      match typ.data with
      | TypeData.TypeIndex e =>
        match md.types.get? e with
        | none => ReqM.fail
        | some ty => do
          let generic ← cppify_name_il2cpp_recurse md ctx_collection self fuel ty
            include_depth declaring_generic_inst_types typ_usage
          let generic_formatted := generic.combineAll
          pure { name := "ArrayW", namespaze := some ""
                 generics := some [generic_formatted, "::Array<" ++ generic_formatted ++ ">*"]
                 is_pointer := false }
      | _ => ReqM.fail
    | Il2CppTypeEnum.Array => pure il2cpp_object_ptr
    | Il2CppTypeEnum.Mvar =>
      match typ.data with
      | TypeData.GenericParameterIndex index =>
        match md.generic_parameters.get? index with
        | none => ReqM.fail
        | some generic_param =>
          match md.generic_containers.get? generic_param.container_index with
          | none => ReqM.fail
          | some owner =>
            if !owner.is_method then ReqM.fail
            else
              match owner.parameters.find? (fun p => p.name_index == generic_param.name_index) with
              | none => ReqM.fail
              | some gen_param =>
                let method_index := owner.owner_index
                match List.lookup method_index self.method_generic_instantiation_map with
                | none => pure (NameComponents.ofString gen_param.name)
                | some method_args =>
                  match method_args.get? gen_param.num with
                  | none => ReqM.fail
                  | some ty_idx =>
                    match md.types.get? ty_idx with
                    | none => ReqM.fail
                    | some ty =>
                      cppify_name_il2cpp_recurse md ctx_collection self fuel ty
                        include_depth declaring_generic_inst_types TypeUsage.GenericArg
      | _ => ReqM.fail
    | Il2CppTypeEnum.Var =>
      match typ.data with
      | TypeData.GenericParameterIndex index =>
        match md.generic_parameters.get? index with
        | none => ReqM.fail
        | some generic_param =>
          match md.generic_containers.get? generic_param.container_index with
          | none => ReqM.fail
          | some owner =>
            match owner.parameters.find? (fun p => p.name_index == generic_param.name_index) with
            | none => ReqM.fail
            | some _gen_param =>
              match self.generic_instantiations_args_types.bind
                  (fun args => args.get? generic_param.num) with
              | none =>
                let gen_name := generic_param.name
                let has_generic_template := (self.cpp_template.getD []).contains gen_name
                if has_generic_template then pure (NameComponents.ofString gen_name)
                else ReqM.fail
              | some ty_idx =>
                match md.types.get? ty_idx with
                | none => ReqM.fail
                | some ty_var =>
                  match self.cpp_name_components.generics with
                  | none => ReqM.fail
                  | some generics =>
                    match generics.get? generic_param.num with
                    | none => ReqM.fail
                    | some resolved_var =>
                      let is_pointer := !ty_var.valuetype &&
                        (self.cpp_template.isNone ||
                         !((self.cpp_template.getD []).contains resolved_var))
                      pure { name := resolved_var, is_pointer := is_pointer }
      | _ => ReqM.fail
    | Il2CppTypeEnum.Genericinst =>
      match typ.data with
      | TypeData.GenericClassIndex e =>
        match md.generic_classes.get? e with
        | none => ReqM.fail
        | some generic_class =>
          match generic_class.class_inst_idx with
          | none => ReqM.fail
          | some inst_idx =>
            match md.generic_insts.get? inst_idx with
            | none => ReqM.fail
            | some new_generic_inst_types =>
              match md.types.get? generic_class.type_index with
              | none => ReqM.fail
              | some generic_type_def =>
                match generic_type_def.data with
                | TypeData.TypeDefinitionIndex tdi => do
                  (if add_include then do
                    let generic_tag := CsTypeTag.GenericInstantiation tdi e
                    ReqM.modReq (·.add_dependency_tag (CsTypeTag.TypeDefinitionIndex tdi))
                    ReqM.modReq (·.add_dependency_tag generic_tag)
                  else pure ())
                  let generic_types_formatted ← cppify_generic_args md
                    (fun t d => cppify_name_il2cpp_recurse md ctx_collection self fuel t d
                      declaring_generic_inst_types TypeUsage.GenericArg)
                    next_include_depth new_generic_inst_types
                  let type_def_name_components ← cppify_name_il2cpp_recurse md ctx_collection
                    self fuel generic_type_def include_depth (some new_generic_inst_types)
                    typ_usage
                  pure { type_def_name_components with generics := some generic_types_formatted }
                | _ => ReqM.fail
      | _ => ReqM.fail
    | Il2CppTypeEnum.I1 => pure (NameComponents.ofString "int8_t")
    | Il2CppTypeEnum.I2 => pure (NameComponents.ofString "int16_t")
    | Il2CppTypeEnum.I4 => pure (NameComponents.ofString "int32_t")
    | Il2CppTypeEnum.I8 => pure (NameComponents.ofString "int64_t")
    | Il2CppTypeEnum.U1 => pure (NameComponents.ofString "uint8_t")
    | Il2CppTypeEnum.U2 => pure (NameComponents.ofString "uint16_t")
    | Il2CppTypeEnum.U4 => pure (NameComponents.ofString "uint32_t")
    | Il2CppTypeEnum.U8 => pure (NameComponents.ofString "uint64_t")
    | Il2CppTypeEnum.R4 => pure (NameComponents.ofString "float_t")
    | Il2CppTypeEnum.R8 => pure (NameComponents.ofString "double_t")
    | Il2CppTypeEnum.Void => pure (NameComponents.ofString "void")
    | Il2CppTypeEnum.Boolean => pure (NameComponents.ofString "bool")
    | Il2CppTypeEnum.Char => pure (NameComponents.ofString "char16_t")
    | Il2CppTypeEnum.String => do
      ReqM.modReq (·.needs_stringw_include)
      pure (NameComponents.ofString "::StringW")
    | Il2CppTypeEnum.Ptr =>
      match typ.data with
      | TypeData.TypeIndex e =>
        match md.types.get? e with
        | none => ReqM.fail
        | some ty => do
          let generic ← cppify_name_il2cpp_recurse md ctx_collection self fuel ty
            include_depth declaring_generic_inst_types typ_usage
          let generic_formatted := generic.combineAll
          pure { namespaze := some "cordl_internals", generics := some [generic_formatted]
                 name := "Ptr" }
      | _ => ReqM.fail
    | _ => pure (NameComponents.ofString "/* UNKNOWN TYPE! */")

/-- `cppify_name_il2cpp`: the public wrapper, seeding the declaring generic
instantiation from the type under construction (the clone-and-write-back of
the requirement set is the state threading itself). -/
def cppify_name_il2cpp (md : Metadata) (ctx_collection : CppContextCollection)
    (self : CppTypeSelf) (fuel : Nat) (typ : Il2CppType) (include_depth : Nat)
    (typ_usage : TypeUsage) : ReqM NameComponents :=
  cppify_name_il2cpp_recurse md ctx_collection self fuel typ include_depth
    self.generic_instantiations_args_types typ_usage

/-- Claim C1's reconciliation rule, following the spec's words: align the
computed size up to the natural alignment; if a gap to the reported size
remains, emit a pad of that gap rounded down to a multiple of the packing
(missing packing derived from the computed size by the table); a remainder
that rounds to zero emits no pad. -/
def claimed_size_padding (calculated reported natural_alignment : Nat)
    (packing : Option Nat) : Option Nat :=
  if calculated = reported then none
  else
    let aligned :=
      if natural_alignment = 0 then calculated
      else ((calculated + natural_alignment - 1) / natural_alignment) * natural_alignment
    let gap := reported - aligned
    if gap = 0 then none
    else
      let p := packing.getD (closest_packing calculated)
      let rounded := if p = 0 then gap else gap / p * p
      if rounded = 0 then none else some rounded

end cpp_type

/-! ## Concrete instances used by the theorems -/

/-- Field A of the layout test: offset 0, size 4. -/
def exA : cs_fields.FieldInfo :=
  { cpp_field := { name := "A", field_ty := "int32_t" }, offset := some 0, size := 4 }

/-- Field B of the layout test: offset 0, size 8. -/
def exB : cs_fields.FieldInfo :=
  { cpp_field := { name := "B", field_ty := "int64_t" }, offset := some 0, size := 8 }

/-- Field C of the layout test: offset 8, size 4. -/
def exC : cs_fields.FieldInfo :=
  { cpp_field := { name := "C", field_ty := "int32_t" }, offset := some 8, size := 4 }

/-- The explicit-layout test field: offset 0x10, size 4. -/
def exF : cs_fields.FieldInfo :=
  { cpp_field := { name := "f", field_ty := "int32_t" }, offset := some 16, size := 4 }

/-- Metadata for the parent-resolution test: one parent type reference. -/
def mdC6 : Metadata :=
  { types := [{ ty := Il2CppTypeEnum.Class, data := TypeData.TypeDefinitionIndex 7 }] }

/-- An enum type definition with a parent link (e.g. `System.Enum`). -/
def enumC6 : Il2CppTypeDefinition :=
  { is_value_type := true, is_enum_type := true, parent_index := some 0
    full_name := "Some.Enum" }

/-- An empty type definition record. -/
def td0 : Il2CppTypeDefinition := {}

/-- A constant field with no decoded default value. -/
def constNoVal : cs_fields.FieldInfo :=
  { cpp_field := { name := "k", field_ty := "int32_t" }, is_constant := true }

/-- A one-field type definition. -/
def tdOneField : Il2CppTypeDefinition := { field_count := 1 }

/-- Metadata for the self-referential generic test: type 0 is a reference
argument `A` (tdi 1), type 1 the definition of the type under construction
(tdi 0), type 2 a generic instantiation of it with argument `A`. -/
def mdC7 : Metadata :=
  { types :=
      [{ ty := Il2CppTypeEnum.Class, data := TypeData.TypeDefinitionIndex 1, valuetype := false },
       { ty := Il2CppTypeEnum.Class, data := TypeData.TypeDefinitionIndex 0 },
       { ty := Il2CppTypeEnum.Genericinst, data := TypeData.GenericClassIndex 0 }]
    type_definitions := [td0, td0]
    generic_classes := [{ type_index := 1, class_inst_idx := some 0 }]
    generic_insts := [[0]] }

/-- Context collection holding the reference argument `A`. -/
def ctxC7 : cpp_type.CppContextCollection :=
  { contexts := [(CsTypeTag.TypeDefinitionIndex 1, 10)]
    cpp_types := [(CsTypeTag.TypeDefinitionIndex 1,
      { self_tag := CsTypeTag.TypeDefinitionIndex 1, name := "A"
        cpp_name_components := { name := "A", is_pointer := true } })] }

/-- The type under construction for the self-referential generic test. -/
def selfC7 : cpp_type.CppTypeSelf :=
  { self_tag := CsTypeTag.TypeDefinitionIndex 0, cpp_name_components := { name := "T" } }

/-- Metadata for the include-depth test: type 0 a value argument `V` (tdi 1),
type 1 a reference argument `R` (tdi 2), type 2 the generic definition `G`
(tdi 3), type 3 the instantiation `G<V, R>`. -/
def mdC5 : Metadata :=
  { types :=
      [{ ty := Il2CppTypeEnum.Valuetype, data := TypeData.TypeDefinitionIndex 1, valuetype := true },
       { ty := Il2CppTypeEnum.Class, data := TypeData.TypeDefinitionIndex 2, valuetype := false },
       { ty := Il2CppTypeEnum.Class, data := TypeData.TypeDefinitionIndex 3 },
       { ty := Il2CppTypeEnum.Genericinst, data := TypeData.GenericClassIndex 0 }]
    type_definitions := [td0, td0, td0, td0]
    generic_classes := [{ type_index := 2, class_inst_idx := some 0 }]
    generic_insts := [[0, 1]] }

/-- A registered generated type, by definition index and name. -/
def mkLite (n : Nat) (s : String) : cpp_type.CppTypeLite :=
  { self_tag := CsTypeTag.TypeDefinitionIndex n, name := s
    cpp_name_components := { name := s } }

/-- Context collection holding `V`, `R` and `G`. -/
def ctxC5 : cpp_type.CppContextCollection :=
  { contexts := [(CsTypeTag.TypeDefinitionIndex 1, 11), (CsTypeTag.TypeDefinitionIndex 2, 12),
                 (CsTypeTag.TypeDefinitionIndex 3, 13)]
    cpp_types := [(CsTypeTag.TypeDefinitionIndex 1, mkLite 1 "V"),
                  (CsTypeTag.TypeDefinitionIndex 2, mkLite 2 "R"),
                  (CsTypeTag.TypeDefinitionIndex 3, mkLite 3 "G")] }

/-- The consumer type for the include-depth test. -/
def selfC5 : cpp_type.CppTypeSelf :=
  { self_tag := CsTypeTag.TypeDefinitionIndex 0, cpp_name_components := { name := "S" } }

/-- Metadata for the deny-list test: tdi 2 is deny-listed; type 0 references
it as a class. -/
def mdC4 : Metadata :=
  { types := [{ ty := Il2CppTypeEnum.Class, data := TypeData.TypeDefinitionIndex 2 }]
    type_definitions := [td0, td0, td0]
    blacklisted_types := [2] }

/-- A plain class reference to the deny-listed tdi 2. -/
def typC4 : Il2CppType :=
  { ty := Il2CppTypeEnum.Class, data := TypeData.TypeDefinitionIndex 2 }

/-- A reference to a type in another context, used for the dependency
deduplication test (tdi 1 is registered in context 10). -/
def typC8 : Il2CppType :=
  { ty := Il2CppTypeEnum.Class, data := TypeData.TypeDefinitionIndex 1 }

/-- The generic instantiation type (generic class 0) of the test metadata. -/
def genInst0 : Il2CppType :=
  { ty := Il2CppTypeEnum.Genericinst, data := TypeData.GenericClassIndex 0 }

/-- The reference argument `R` (tdi 2) of the include-depth test metadata. -/
def typR : Il2CppType :=
  { ty := Il2CppTypeEnum.Class, data := TypeData.TypeDefinitionIndex 2, valuetype := false }

/-- Metadata for the dedup test: tdi 1 exists and is not deny-listed. -/
def mdC8 : Metadata := { type_definitions := [td0, td0] }

/-- Context collection for the dedup test: tdi 1 in context 10. -/
def ctxC8 : cpp_type.CppContextCollection :=
  { contexts := [(CsTypeTag.TypeDefinitionIndex 1, 10)]
    cpp_types := [(CsTypeTag.TypeDefinitionIndex 1, mkLite 1 "B1")] }

/-- The consumer type for the dedup test. -/
def selfC8 : cpp_type.CppTypeSelf :=
  { self_tag := CsTypeTag.TypeDefinitionIndex 0, cpp_name_components := { name := "S8" } }

/-! ## Proof infrastructure: properties of `ReqM` programs -/

namespace cpp_type

/-- A `ReqM` program only ever unions a fixed delta (computed from the empty
accumulator) into its input accumulator, and succeeds or fails independently
of the accumulator. -/
def ReqM.Adds (x : ReqM α) : Prop :=
  ∀ r, x r = Option.map (fun p => (p.1, CppTypeRequirements.union r p.2))
    (x CppTypeRequirements.empty)

/-- A `ReqM` program records no dependency tag and no context typedef
include: name-only resolution. -/
def ReqM.NameOnly (x : ReqM α) : Prop :=
  ∀ r a r', x r = some (a, r') →
    r'.depending_types = r.depending_types ∧
    ∀ c, CppInclude.context_typedef c ∈ r'.required_def_includes ↔
         CppInclude.context_typedef c ∈ r.required_def_includes

end cpp_type

/-!
# Theorems
-/

/-- A fold in the `Option` monad fails whenever the list contains an element
on which the step fails from every state. -/
theorem foldlM_none_of_mem {α β : Type} (step : β → α → Option β) (l : List α) (x : α)
    (hx : x ∈ l) (h : ∀ st, step st x = none) : ∀ s, List.foldlM step s l = none := by
  induction l with
  | nil => cases hx
  | cons y ys ih =>
    intro s
    rw [List.foldlM_cons]
    rcases List.mem_cons.mp hx with rfl | hmem
    · rw [h s]; rfl
    · cases hstep : step s y with
      | none => rfl
      | some s' => exact ih hmem s'

/-- Mapping each field to its pair of offset structs yields twice as many
declarations as fields once flattened. -/
theorem mapM_offset_pairs_length (mo : Nat) :
    ∀ (fields : List cs_fields.FieldInfo) (ps : List (List cs_fields.CsMember)),
      fields.mapM (fun field =>
        (cs_fields.field_into_offset_structs mo field).map (fun s => [s.1, s.2])) = some ps →
      (ps.foldr (· ++ ·) []).length = 2 * fields.length := by
  intro fields
  induction fields with
  | nil =>
    intro ps h
    obtain rfl : ([] : List (List cs_fields.CsMember)) = ps := Option.some.inj h
    rfl
  | cons f fs ih =>
    intro ps h
    rw [List.mapM_cons] at h
    cases hf : cs_fields.field_into_offset_structs mo f with
    | none =>
      rw [hf] at h
      simp [Option.bind_eq_bind] at h
    | some pair =>
      rw [hf] at h
      cases hrest : fs.mapM (fun field =>
          (cs_fields.field_into_offset_structs mo field).map (fun s => [s.1, s.2])) with
      | none =>
        rw [hrest] at h
        simp [Option.bind_eq_bind] at h
      | some rest =>
        rw [hrest] at h
        simp only [Option.map_some', Option.bind_eq_bind, Option.some_bind] at h
        obtain rfl : [pair.1, pair.2] :: rest = ps := Option.some.inj h
        simp only [List.foldr_cons, List.length_append, List.length_cons, List.length_nil]
        have := ih rest hrest
        omega

/-- The instance-field filter is unaffected by first dropping static and
constant fields. -/
theorem instance_field_decls_filter (fields : List cs_fields.FieldInfo) :
    cs_fields.instance_field_decls
        (fields.filter (fun f => !f.is_static && !f.is_constant)) =
      cs_fields.instance_field_decls fields := by
  unfold cs_fields.instance_field_decls
  rw [List.filter_filter]
  apply List.filter_congr
  intro f _
  cases f.offset <;> cases f.is_static <;> cases f.is_constant <;> rfl

namespace cpp_type

/-- Union with the empty accumulator on the right. -/
theorem union_empty (r : CppTypeRequirements) : r.union CppTypeRequirements.empty = r := by
  cases r
  simp [CppTypeRequirements.union, CppTypeRequirements.empty]

/-- Union with the empty accumulator on the left. -/
theorem empty_union (r : CppTypeRequirements) : CppTypeRequirements.empty.union r = r := by
  cases r
  simp [CppTypeRequirements.union, CppTypeRequirements.empty]

/-- Associativity of the accumulator union. -/
theorem union_assoc (a b c : CppTypeRequirements) :
    (a.union b).union c = a.union (b.union c) := by
  cases a; cases b; cases c
  simp [CppTypeRequirements.union, Finset.union_assoc]

/-- Idempotence of the accumulator union. -/
theorem union_self (a : CppTypeRequirements) : a.union a = a := by
  cases a
  simp [CppTypeRequirements.union]

/-- `add_forward_declare` commutes with a left union. -/
theorem union_add_forward_declare (r s : CppTypeRequirements) (d) :
    r.union (s.add_forward_declare d) = (r.union s).add_forward_declare d := by
  cases r; cases s
  simp [CppTypeRequirements.union, CppTypeRequirements.add_forward_declare,
    Finset.union_insert]

/-- `add_def_include` commutes with a left union. -/
theorem union_add_def_include (r s : CppTypeRequirements) (t i) :
    r.union (s.add_def_include t i) = (r.union s).add_def_include t i := by
  cases r; cases s
  cases t <;>
    simp [CppTypeRequirements.union, CppTypeRequirements.add_def_include,
      Finset.union_insert]

/-- `add_impl_include` commutes with a left union. -/
theorem union_add_impl_include (r s : CppTypeRequirements) (t i) :
    r.union (s.add_impl_include t i) = (r.union s).add_impl_include t i := by
  cases r; cases s
  cases t <;>
    simp [CppTypeRequirements.union, CppTypeRequirements.add_impl_include,
      Finset.union_insert]

/-- `add_dependency_tag` commutes with a left union. -/
theorem union_add_dependency_tag (r s : CppTypeRequirements) (t) :
    r.union (s.add_dependency_tag t) = (r.union s).add_dependency_tag t := by
  cases r; cases s
  simp [CppTypeRequirements.union, CppTypeRequirements.add_dependency_tag,
    Finset.union_insert]

/-- Running `pure`. -/
theorem ReqM.pure_apply (a : α) (r : CppTypeRequirements) :
    (pure a : ReqM α) r = some (a, r) := rfl

/-- Running a bind. -/
theorem ReqM.bind_apply (x : ReqM α) (f : α → ReqM β) (r : CppTypeRequirements) :
    (x >>= f) r = match x r with
      | none => none
      | some (a, r') => f a r' := rfl

/-- `pure` only unions an empty delta. -/
theorem ReqM.adds_pure (a : α) : (pure a : ReqM α).Adds := by
  intro r
  show some (a, r) = Option.map _ (some (a, CppTypeRequirements.empty))
  simp [union_empty]

/-- `fail` is accumulator-independent. -/
theorem ReqM.adds_fail : (ReqM.fail : ReqM α).Adds := fun _ => rfl

/-- A mutation commuting with union only unions a fixed delta. -/
theorem ReqM.adds_modReq (g : CppTypeRequirements → CppTypeRequirements)
    (hg : ∀ r s : CppTypeRequirements, r.union (g s) = g (r.union s)) :
    (ReqM.modReq g).Adds := by
  intro r
  show some ((), g r) = Option.map _ (some ((), g CppTypeRequirements.empty))
  have := hg r CppTypeRequirements.empty
  rw [union_empty] at this
  simp [ReqM.modReq, ← this]

/-- Binds of delta-union programs are delta-union programs. -/
theorem ReqM.adds_bind {x : ReqM α} {f : α → ReqM β} (hx : x.Adds)
    (hf : ∀ a, (f a).Adds) : (x >>= f).Adds := by
  intro r
  rw [ReqM.bind_apply, ReqM.bind_apply]
  rw [hx r]
  cases hxe : x CppTypeRequirements.empty with
  | none => simp
  | some p =>
    obtain ⟨a, d⟩ := p
    simp only [Option.map_some']
    rw [hf a (r.union d), hf a d]
    cases hfe : f a CppTypeRequirements.empty with
    | none => simp
    | some q =>
      obtain ⟨b, e⟩ := q
      simp [union_assoc]

theorem adds_add_dependency_tag (t : CsTypeTag) :
    (ReqM.modReq (·.add_dependency_tag t)).Adds :=
  ReqM.adds_modReq _ (fun r s => union_add_dependency_tag r s t)

theorem adds_add_forward_declare (d : CppForwardDeclare × CppInclude) :
    (ReqM.modReq (·.add_forward_declare d)).Adds :=
  ReqM.adds_modReq _ (fun r s => union_add_forward_declare r s d)

theorem adds_add_def_include (t : Option CsTypeTag) (i : CppInclude) :
    (ReqM.modReq (·.add_def_include t i)).Adds :=
  ReqM.adds_modReq _ (fun r s => union_add_def_include r s t i)

theorem adds_add_impl_include (t : Option CsTypeTag) (i : CppInclude) :
    (ReqM.modReq (·.add_impl_include t i)).Adds :=
  ReqM.adds_modReq _ (fun r s => union_add_impl_include r s t i)

theorem adds_needs_int : (ReqM.modReq (·.needs_int_include)).Adds :=
  ReqM.adds_modReq _ (fun r s => union_add_def_include r s none _)

theorem adds_needs_math : (ReqM.modReq (·.needs_math_include)).Adds :=
  ReqM.adds_modReq _ (fun r s => union_add_def_include r s none _)

theorem adds_needs_stringw : (ReqM.modReq (·.needs_stringw_include)).Adds :=
  ReqM.adds_modReq _ (fun r s => union_add_def_include r s none _)

theorem adds_needs_arrayw : (ReqM.modReq (·.needs_arrayw_include)).Adds :=
  ReqM.adds_modReq _ (fun r s => union_add_def_include r s none _)

/-- The primitive-support preamble only unions a delta. -/
theorem adds_int_preamble (t : Il2CppTypeEnum) : (int_preamble t).Adds := by
  cases t <;> simp only [int_preamble] <;>
    first
    | exact ReqM.adds_pure _
    | exact adds_needs_int
    | exact adds_needs_math

/-- Generic-argument resolution only unions a delta when the element resolver
does. -/
theorem adds_generic_args (md : Metadata) (f : Il2CppType → Nat → ReqM NameComponents)
    (next : Nat) (hf : ∀ t d, (f t d).Adds) :
    ∀ ts, (cppify_generic_args md f next ts).Adds := by
  intro ts
  induction ts with
  | nil => exact ReqM.adds_pure _
  | cons t rest ih =>
    simp only [cppify_generic_args]
    cases hg : md.types.get? t with
    | none => exact ReqM.adds_fail
    | some gen =>
      exact ReqM.adds_bind (hf _ _) fun n => ReqM.adds_bind ih fun ns => ReqM.adds_pure _

set_option maxHeartbeats 2000000 in
/-- The name resolver only unions a fixed delta of requirements into the
accumulator it is run on; its result name and success are independent of the
incoming accumulator. -/
theorem adds_cppify (md : Metadata) (ctx : CppContextCollection) (self : CppTypeSelf) :
    ∀ fuel typ depth inst usage,
      (cppify_name_il2cpp_recurse md ctx self fuel typ depth inst usage).Adds := by
  intro fuel
  induction fuel with
  | zero => intro typ depth inst usage; exact ReqM.adds_fail
  | succ fuel ih =>
    intro typ depth inst usage
    obtain ⟨ty, data, vt, br, est, ect, epo⟩ := typ
    cases ty <;>
      simp only [cppify_name_il2cpp_recurse] <;>
      repeat
        first
        | exact ReqM.adds_fail
        | exact ReqM.adds_pure _
        | exact ih _ _ _ _
        | exact adds_needs_int
        | exact adds_needs_math
        | exact adds_needs_stringw
        | exact adds_needs_arrayw
        | exact adds_add_dependency_tag _
        | exact adds_add_def_include _ _
        | exact adds_add_impl_include _ _
        | exact adds_add_forward_declare _
        | exact adds_generic_args _ _ _ (fun t d => ih _ _ _ _) _
        | apply ReqM.adds_bind
        | split
        | intro _

end cpp_type

/-- C2 counterexample: on fields A(0,4), B(0,8), C(8,4) the engine does not
produce a single union; C extends past the running extent, starts a new
group, and is emitted as a plain trailing field next to a union of B and A. -/
theorem c2_counterexample :
    (cs_fields.make_or_unionize_fields [exA, exB, exC]).length = 2 ∧
    (cs_fields.make_or_unionize_fields [exA, exB, exC]).getLast? =
      some (cs_fields.CsMember.FieldDecl exC.cpp_field) ∧
    ¬ ∃ m, cs_fields.make_or_unionize_fields [exA, exB, exC] = [m] := by
  refine ⟨rfl, rfl, ?_⟩
  rintro ⟨m, hm⟩
  have h2 : (cs_fields.make_or_unionize_fields [exA, exB, exC]).length = 2 := rfl
  rw [hm] at h2
  simp at h2

/-- C2 (amended): with a collision, fields are sorted by size descending then
stably by offset and grouped by a running maximum extent, where a field that
ends within the current extent joins the current group and one that extends
past it starts a new group at its own offset.  On A(0,4), B(0,8), C(8,4) this
yields one union with branches {B} and {A} plus C as a plain field; without
any collision all fields are emitted plainly. -/
theorem c2_collision_unionization :
    cs_fields.make_or_unionize_fields [exA, exB, exC] =
      [cs_fields.CsMember.NestedUnion (some "Anonymous union offset 0x0, size 0x8")
        [cs_fields.CsMember.FieldDecl exB.cpp_field, cs_fields.CsMember.FieldDecl exA.cpp_field]
        0 false,
       cs_fields.CsMember.FieldDecl exC.cpp_field] ∧
    cs_fields.field_collision_check [exA, exB, exC] = true ∧
    ∀ fields, cs_fields.field_collision_check fields = false →
      cs_fields.make_or_unionize_fields fields =
        fields.map (fun d => cs_fields.CsMember.FieldDecl d.cpp_field) := by
  refine ⟨rfl, rfl, ?_⟩
  intro fields h
  unfold cs_fields.make_or_unionize_fields
  rw [h]
  rfl

/-- C2 witness: a collision-free list is emitted as plain fields. -/
theorem c2_witness :
    cs_fields.make_or_unionize_fields [exA] = [cs_fields.CsMember.FieldDecl exA.cpp_field] :=
  c2_collision_unionization.2.2 [exA] rfl

/-- C3: each explicit-layout field synthesizes exactly two sibling structs,
each led by a byte-array pad of size equal to the field's offset, one packed
at 1 and one at the enclosing type's packing; all pairs are packed together
into a single union.  A field at offset 0x10 of size 4 yields exactly the two
0x10-padded variants. -/
theorem c3_explicit_layout_offset_structs :
    (∀ (mo : Nat) (field : cs_fields.FieldInfo) (o : Nat), field.offset = some o →
      cs_fields.field_into_offset_structs mo field =
        some (cs_fields.CsMember.NestedStruct "" none
            [cs_fields.CsMember.FieldDecl
                { brief_comment := some ("Padding field 0x" ++ hexStr o)
                  const_expr := false
                  name := field.cpp_field.name ++ "_padding[0x" ++ hexStr o ++ "]"
                  field_ty := "uint8_t", offset := o, isInstance := true
                  is_private := false, readonly := false, value := none },
             cs_fields.CsMember.FieldDecl { field.cpp_field with is_private := false }]
            none false false false (some 1),
          cs_fields.CsMember.NestedStruct "" none
            [cs_fields.CsMember.FieldDecl
                { brief_comment := some ("Padding field 0x" ++ hexStr o ++ " for alignment")
                  const_expr := false
                  name := field.cpp_field.name ++ "_padding_forAlignment[0x" ++ hexStr o ++ "]"
                  field_ty := "uint8_t", offset := o, isInstance := true
                  is_private := false, readonly := false, value := none },
             cs_fields.CsMember.FieldDecl
                { field.cpp_field with
                    name := field.cpp_field.name ++ "_forAlignment", is_private := false }]
            none false false false none)) ∧
    (∀ fields u, cs_fields.pack_fields_into_single_union fields = some u →
      ∃ decls mo, u = cs_fields.CsMember.NestedUnion
          (some "Explicitly laid out type with union based offsets") decls mo true ∧
        decls.length = 2 * fields.length) ∧
    cs_fields.pack_fields_into_single_union [exF] =
      some (cs_fields.CsMember.NestedUnion
        (some "Explicitly laid out type with union based offsets")
        [cs_fields.CsMember.NestedStruct "" none
            [cs_fields.CsMember.FieldDecl
                { brief_comment := some "Padding field 0x10", const_expr := false
                  name := "f_padding[0x10]", field_ty := "uint8_t", offset := 16
                  isInstance := true, is_private := false, readonly := false, value := none },
             cs_fields.CsMember.FieldDecl { exF.cpp_field with is_private := false }]
            none false false false (some 1),
         cs_fields.CsMember.NestedStruct "" none
            [cs_fields.CsMember.FieldDecl
                { brief_comment := some "Padding field 0x10 for alignment", const_expr := false
                  name := "f_padding_forAlignment[0x10]", field_ty := "uint8_t", offset := 16
                  isInstance := true, is_private := false, readonly := false, value := none },
             cs_fields.CsMember.FieldDecl
                { exF.cpp_field with name := "f_forAlignment", is_private := false }]
            none false false false none]
        16 true) := by
  refine ⟨?_, ?_, rfl⟩
  · intro mo field o h
    unfold cs_fields.field_into_offset_structs
    rw [h]
  · intro fields u h
    unfold cs_fields.pack_fields_into_single_union at h
    split at h
    · exact Option.noConfusion h
    · split at h
      · exact Option.noConfusion h
      · rename_i ps hps
        refine ⟨_, _, (Option.some.inj h).symm, ?_⟩
        exact mapM_offset_pairs_length _ fields ps hps

/-- C3 witness: the per-field equation at the concrete field of offset 0x10. -/
theorem c3_witness :
    cs_fields.field_into_offset_structs 16 exF ≠ none := by
  rw [c3_explicit_layout_offset_structs.1 16 exF 16 rfl]
  simp

/-- C6 counterexample: an enum type with a parent link gets a parent
reference; `make_parents` only skips non-enum value types. -/
theorem c6_counterexample :
    cs_type.make_parents mdC6 enumC6 = some (some (CsTypeTag.TypeDefinitionIndex 7)) ∧
    cs_type.make_parents mdC6 enumC6 ≠ some none := by
  exact ⟨rfl, by decide⟩

/-- C6 (amended): parent resolution is skipped exactly for value types that
are not enum types (enums and reference types receive the parent reference),
and a non-interface type without a parent index that is not literally
`System.Object` is excluded from generation. -/
theorem c6_parent_resolution :
    (∀ md t r, t.is_value_type = true → t.is_enum_type = false →
        cs_type.make_parents md t = some r → r = none) ∧
    (∀ md t, t.parent_index = none → t.is_interface = false →
        t.full_name ≠ "System.Object" →
        cs_type.make_cs_type_parent_gate md t = some false) := by
  constructor
  · intro md t r hv he h
    unfold cs_type.make_parents at h
    split at h
    · exact (Option.some.inj h).symm
    · split at h
      · cases h
      · split at h
        · cases h
        · split at h
          · simp [hv, he] at *
          · exact (Option.some.inj h).symm
  · intro md t hp hi hn
    unfold cs_type.make_cs_type_parent_gate
    rw [hp]
    simp [hi, hn]

/-- C6 witness: the exclusion gate at a concrete parentless type. -/
theorem c6_witness :
    cs_type.make_cs_type_parent_gate mdC6 { full_name := "X" } = some false :=
  c6_parent_resolution.2 mdC6 { full_name := "X" } rfl rfl (by decide)

/-- C9: a static or constant field gets no offset from `get_offset`, the
built field record is flagged non-instance with the absent offset threaded
through, the instance-field filter drops every static/constant field, and
`handle_instance_fields` is unchanged by removing them up front. -/
theorem c9_static_const_no_instance_offset :
    (∀ f_type itn foi osz t, (f_type.is_static || f_type.is_constant) = true →
        cs_type.get_offset f_type itn foi osz t = none) ∧
    (∀ md sv se n ti fo fs dv fi f_type, md.types.get? ti = some f_type →
        cs_type.make_field_entry md sv se n ti fo fs dv = some (some fi) →
        fi.cs_field.isInstance = (!f_type.is_static && !f_type.is_constant) ∧
        fi.is_static = f_type.is_static ∧ fi.is_constant = f_type.is_constant ∧
        fi.offset = fo ∧ fi.cs_field.offset = fo) ∧
    (∀ fields (f : cs_fields.FieldInfo), f ∈ cs_fields.instance_field_decls fields →
        f.is_static = false ∧ f.is_constant = false ∧ f.offset.isSome = true) ∧
    (∀ st fields t, cs_fields.handle_instance_fields st fields t =
        cs_fields.handle_instance_fields st
          (fields.filter (fun f => !f.is_static && !f.is_constant)) t) := by
  refine ⟨?_, ?_, ?_, ?_⟩
  · intro f_type itn foi osz t h
    simp [cs_type.get_offset, h]
  · intro md sv se n ti fo fs dv fi f_type hty h
    simp only [cs_type.make_field_entry, hty] at h
    split at h
    · exact Option.noConfusion (Option.some.inj h)
    · split at h
      · exact Option.noConfusion h
      · simp only [Option.some.injEq] at h
        subst h
        exact ⟨rfl, rfl, rfl, rfl, rfl⟩
  · intro fields f hf
    have := List.of_mem_filter hf
    simp only [Bool.and_eq_true, Bool.not_eq_true'] at this
    exact ⟨this.1.2, this.2, this.1.1⟩
  · intro st fields t
    unfold cs_fields.handle_instance_fields
    rw [instance_field_decls_filter]

/-- C9 witness: the offset of a concrete static field is absent. -/
theorem c9_witness :
    cs_type.get_offset
      { ty := Il2CppTypeEnum.I4, data := TypeData.TypeIndex 0, is_static := true }
      none 8 16 td0 = none :=
  c9_static_const_no_instance_offset.1 _ none 8 16 td0 rfl

/-- C10: a constant field without a decoded default value makes
`handle_const_fields` panic, and a decoded default value on a type not
flagged parameter-optional aborts field construction (it never produces a
field entry; on a value type it panics outright). -/
theorem c10_default_value_invariants :
    (∀ ct fields ctx md t (f : cs_fields.FieldInfo), t.field_count ≠ 0 → f ∈ fields →
        f.is_constant = true → f.cpp_field.value = none →
        cs_fields.handle_const_fields ct fields ctx md t = none) ∧
    (∀ md sv se n ti fo fs dv f_type fi, md.types.get? ti = some f_type →
        dv.isSome = true → f_type.is_param_optional = false →
        cs_type.make_field_entry md sv se n ti fo fs dv ≠ some (some fi)) ∧
    (∀ md se n ti fo fs dv f_type, md.types.get? ti = some f_type →
        dv.isSome = true → f_type.is_param_optional = false →
        cs_type.make_field_entry md true se n ti fo fs dv = none) := by
  refine ⟨?_, ?_, ?_⟩
  · intro ct fields ctx md t f hcount hf hconst hval
    unfold cs_fields.handle_const_fields
    rw [if_neg hcount]
    apply foldlM_none_of_mem _ _ f
    · exact List.mem_filter.mpr ⟨hf, by simp [hconst]⟩
    · intro st
      simp only [hval]
  · intro md sv se n ti fo fs dv f_type fi hty hdv hopt
    simp only [cs_type.make_field_entry, hty]
    split
    · simp
    · rw [if_pos (by simp [hdv, hopt])]
      simp
  · intro md se n ti fo fs dv f_type hty hdv hopt
    simp only [cs_type.make_field_entry, hty]
    split
    · next hbl => simp at hbl
    · rw [if_pos (by simp [hdv, hopt])]

/-- C10 witness: a concrete constant field without a default value panics
the const handler. -/
theorem c10_witness :
    cs_fields.handle_const_fields {} [constNoVal] {} {} tdOneField = none :=
  c10_default_value_invariants.1 {} [constNoVal] {} {} tdOneField constNoVal
    (by decide) (List.mem_singleton.mpr rfl) rfl rfl

/-- C1 counterexample: with calculated size 0x17, natural alignment 8,
metadata size 0x20 and specified packing 1, the engine emits a pad of 0x9
bytes (`|0x20 - 0x17|` rounded by the packing mask applied to the raw
calculated size) under both cfg branches, while the claimed rule (align up,
pad the remaining gap) prescribes 0x8. -/
theorem c1_counterexample :
    cpp_type.claimed_size_padding 23 32 8 (some 1) = some 8 ∧
    (cpp_type.create_size_padding true (some [⟨32⟩]) 0 (some 1) (some ⟨32, 8, 23⟩)).map
      cpp_type.CppFieldDecl.cpp_name = some (cpp_type.padName 9) ∧
    (cpp_type.create_size_padding false (some [⟨32⟩]) 0 (some 1) (some ⟨32, 8, 23⟩)).map
      cpp_type.CppFieldDecl.cpp_name = some (cpp_type.padName 9) ∧
    (cpp_type.create_size_padding true (some [⟨32⟩]) 0 (some 1) (some ⟨32, 8, 23⟩)).map
      cpp_type.CppFieldDecl.cpp_name ≠
      (cpp_type.claimed_size_padding 23 32 8 (some 1)).map cpp_type.padName ∧
    (cpp_type.create_size_padding false (some [⟨32⟩]) 0 (some 1) (some ⟨32, 8, 23⟩)).map
      cpp_type.CppFieldDecl.cpp_name ≠
      (cpp_type.claimed_size_padding 23 32 8 (some 1)).map cpp_type.padName := by
  refine ⟨rfl, rfl, rfl, ?_, ?_⟩ <;> decide

/-- C1 (amended): `create_size_padding` emits at most one trailing
byte-array pad; the gate compares the metadata size with the computed size
adjusted per cfg (`(computed + alignment) & !(alignment - 1)` under v29 for a
nonzero alignment, the computed size itself under v31), and the emitted pad's
size is `|metadata - computed|` (the raw computed size, not the aligned one)
masked down by the packing, where a missing packing is derived from the
computed size via the 0/1/2/4/4/8 table, and a zero masked size emits
nothing.  In particular, calculated 0x18 against 0x20 with packing 8 emits
one 0x8 pad under v31, and calculated 0x1F against 0x20 with packing 8 emits
none under either branch. -/
theorem c1_size_padding :
    (∀ (v29 : Bool) sizes tdi packing si d,
      cpp_type.create_size_padding v29 sizes tdi packing (some si) = some d →
      ∃ s, s ≠ 0 ∧ d.cpp_name = cpp_type.padName s ∧ d.field_ty = "uint8_t" ∧
        d.offset = some si.instance_size ∧ s = cpp_type.packed_remaining_size packing si ∧
        cpp_type.aligned_calculated_size v29 si ≠ si.instance_size) ∧
    (cpp_type.create_size_padding false (some [⟨32⟩]) 0 (some 8) (some ⟨32, 8, 24⟩)).map
      cpp_type.CppFieldDecl.cpp_name = some (cpp_type.padName 8) ∧
    cpp_type.create_size_padding true (some [⟨32⟩]) 0 (some 8) (some ⟨32, 8, 31⟩) = none ∧
    cpp_type.create_size_padding false (some [⟨32⟩]) 0 (some 8) (some ⟨32, 8, 31⟩) = none := by
  refine ⟨?_, rfl, rfl, rfl⟩
  intro v29 sizes tdi packing si d h
  unfold cpp_type.create_size_padding at h
  split at h
  · exact Option.noConfusion h
  · split at h
    · exact Option.noConfusion h
    · split at h
      · exact Option.noConfusion h
      · split at h
        · exact Option.noConfusion h
        · rename_i si' heq
          obtain rfl := Option.some.inj heq
          split at h
          · exact Option.noConfusion h
          · rename_i hgate
            split at h
            · exact Option.noConfusion h
            · rename_i hzero
              obtain rfl := Option.some.inj h
              exact ⟨_, hzero, rfl, rfl, rfl, rfl, hgate⟩

/-- C1 witness: the amended characterization applied to the concrete v31
run with calculated 0x18, metadata 0x20, packing 8. -/
theorem c1_witness :
    ∃ d, cpp_type.create_size_padding false (some [⟨32⟩]) 0 (some 8) (some ⟨32, 8, 24⟩) =
        some d ∧ ∃ s, s ≠ 0 ∧ d.cpp_name = cpp_type.padName s := by
  refine ⟨_, rfl, ?_⟩
  obtain ⟨s, h1, h2, _⟩ := c1_size_padding.1 false (some [⟨32⟩]) 0 (some 8) ⟨32, 8, 24⟩ _ rfl
  exact ⟨s, h1, h2⟩

namespace cpp_type

/-- `pure` is name-only. -/
theorem ReqM.nameonly_pure (a : α) : (pure a : ReqM α).NameOnly := by
  intro r b r' h
  cases h
  exact ⟨rfl, fun c => Iff.rfl⟩

/-- `fail` is name-only. -/
theorem ReqM.nameonly_fail : (ReqM.fail : ReqM α).NameOnly := by
  intro r a r' h
  cases h

/-- Binds of name-only programs are name-only. -/
theorem ReqM.nameonly_bind {x : ReqM α} {f : α → ReqM β} (hx : x.NameOnly)
    (hf : ∀ a, (f a).NameOnly) : (x >>= f).NameOnly := by
  intro r b r2 h
  rw [ReqM.bind_apply] at h
  cases hx0 : x r with
  | none => rw [hx0] at h; cases h
  | some p =>
    obtain ⟨a, r1⟩ := p
    rw [hx0] at h
    obtain ⟨h1, h2⟩ := hx r a r1 hx0
    obtain ⟨h3, h4⟩ := hf a r1 b r2 h
    exact ⟨h3.trans h1, fun c => (h4 c).trans (h2 c)⟩

/-- A mutation that leaves the dependency tags and the context typedef
includes alone is name-only. -/
theorem ReqM.nameonly_modReq (g : CppTypeRequirements → CppTypeRequirements)
    (hdeps : ∀ r : CppTypeRequirements, (g r).depending_types = r.depending_types)
    (hincl : ∀ (r : CppTypeRequirements) c,
      CppInclude.context_typedef c ∈ (g r).required_def_includes ↔
      CppInclude.context_typedef c ∈ r.required_def_includes) :
    (ReqM.modReq g).NameOnly := by
  intro r a r' h
  cases h
  exact ⟨hdeps r, fun c => hincl r c⟩

theorem nameonly_needs_int : (ReqM.modReq (·.needs_int_include)).NameOnly :=
  ReqM.nameonly_modReq _ (fun _ => rfl)
    (fun r c => by
      simp [CppTypeRequirements.needs_int_include, CppTypeRequirements.add_def_include])

theorem nameonly_needs_math : (ReqM.modReq (·.needs_math_include)).NameOnly :=
  ReqM.nameonly_modReq _ (fun _ => rfl)
    (fun r c => by
      simp [CppTypeRequirements.needs_math_include, CppTypeRequirements.add_def_include])

theorem nameonly_needs_stringw : (ReqM.modReq (·.needs_stringw_include)).NameOnly :=
  ReqM.nameonly_modReq _ (fun _ => rfl)
    (fun r c => by
      simp [CppTypeRequirements.needs_stringw_include, CppTypeRequirements.add_def_include])

theorem nameonly_needs_arrayw : (ReqM.modReq (·.needs_arrayw_include)).NameOnly :=
  ReqM.nameonly_modReq _ (fun _ => rfl)
    (fun r c => by
      simp [CppTypeRequirements.needs_arrayw_include, CppTypeRequirements.add_def_include])

theorem nameonly_add_forward_declare (d : CppForwardDeclare × CppInclude) :
    (ReqM.modReq (·.add_forward_declare d)).NameOnly :=
  ReqM.nameonly_modReq _ (fun _ => rfl) (fun r c => Iff.rfl)

/-- The primitive-support preamble is name-only. -/
theorem nameonly_int_preamble (t : Il2CppTypeEnum) : (int_preamble t).NameOnly := by
  cases t <;> simp only [int_preamble] <;>
    first
    | exact ReqM.nameonly_pure _
    | exact nameonly_needs_int
    | exact nameonly_needs_math

/-- Generic-argument resolution at a zero budget is name-only when the
element resolver is at depth zero. -/
theorem nameonly_generic_args (md : Metadata) (f : Il2CppType → Nat → ReqM NameComponents)
    (hf : ∀ t, (f t 0).NameOnly) :
    ∀ ts, (cppify_generic_args md f 0 ts).NameOnly := by
  intro ts
  induction ts with
  | nil => exact ReqM.nameonly_pure _
  | cons t rest ih =>
    simp only [cppify_generic_args, ite_self]
    cases hg : md.types.get? t with
    | none => exact ReqM.nameonly_fail
    | some gen =>
      exact ReqM.nameonly_bind (hf _) fun n => ReqM.nameonly_bind ih fun ns =>
        ReqM.nameonly_pure _

set_option maxHeartbeats 2000000 in
/-- At include depth zero the resolver is name-only: it records no dependency
tag and no context typedef include. -/
theorem nameonly_cppify_zero (md : Metadata) (ctx : CppContextCollection)
    (self : CppTypeSelf) :
    ∀ fuel typ inst usage,
      (cppify_name_il2cpp_recurse md ctx self fuel typ 0 inst usage).NameOnly := by
  intro fuel
  induction fuel with
  | zero => intro typ inst usage; exact ReqM.nameonly_fail
  | succ fuel ih =>
    intro typ inst usage
    obtain ⟨ty, data, vt, br, est, ect, epo⟩ := typ
    cases ty <;>
      simp only [cppify_name_il2cpp_recurse, show decide (0 < 0) = false from rfl,
        Bool.false_eq_true, if_false, ite_self] <;>
      repeat
        first
        | exact ReqM.nameonly_fail
        | exact ReqM.nameonly_pure _
        | exact ih _ _ _
        | exact nameonly_needs_int
        | exact nameonly_needs_math
        | exact nameonly_needs_stringw
        | exact nameonly_needs_arrayw
        | exact nameonly_add_forward_declare _
        | exact nameonly_generic_args _ _ (fun t => ih _ _ _) _
        | apply ReqM.nameonly_bind
        | split
        | intro _

end cpp_type

/-- C4: a reference to a deny-listed type definition is not an error: the
resolver substitutes the opaque wrapper handle for its category (the root
`Il2CppObject*` for a class reference, i.e. the widening/base-class shape)
and records no dependency tag, no forward declaration and no impl include
for it. -/
theorem c4_denylist_substitution :
    ∀ md ctx self fuel depth inst usage (r : cpp_type.CppTypeRequirements)
      (typ : Il2CppType) tdi td,
      (typ.ty = Il2CppTypeEnum.Object ∨ typ.ty = Il2CppTypeEnum.Valuetype ∨
       typ.ty = Il2CppTypeEnum.Class ∨ typ.ty = Il2CppTypeEnum.Typedbyref ∨
       typ.ty = Il2CppTypeEnum.I ∨ typ.ty = Il2CppTypeEnum.U) →
      typ.data = TypeData.TypeDefinitionIndex tdi →
      md.type_definitions.get? tdi = some td →
      tdi ∈ md.blacklisted_types →
      CsTypeTag.TypeDefinitionIndex tdi ≠ self.self_tag →
      ∃ r', cpp_type.cppify_name_il2cpp_recurse md ctx self (fuel + 1) typ depth inst usage r =
          some ((if typ.ty = Il2CppTypeEnum.Class then cpp_type.il2cpp_object_ptr
                 else cpp_type.NameComponents.ofString (wrapper_type_for_tdi td)), r') ∧
        r'.depending_types = r.depending_types ∧
        r'.forward_declares = r.forward_declares ∧
        r'.required_impl_includes = r.required_impl_includes := by
  intro md ctx self fuel depth inst usage r typ tdi td hty hdata hget hbl hne
  obtain ⟨ty, data, vt, br, est, ect, epo⟩ := typ
  simp only at hdata hty
  subst hdata
  rw [List.get?_eq_getElem?] at hget
  rcases hty with rfl | rfl | rfl | rfl | rfl | rfl
  · exact ⟨r, by
          simp [cpp_type.cppify_name_il2cpp_recurse, cpp_type.int_preamble,
            cpp_type.ReqM.bind_apply, cpp_type.ReqM.pure_apply, cpp_type.ReqM.modReq,
            CsTypeTag.ofTypeData, hne, hget, hbl], rfl, rfl, rfl⟩
  · exact ⟨r, by
          simp [cpp_type.cppify_name_il2cpp_recurse, cpp_type.int_preamble,
            cpp_type.ReqM.bind_apply, cpp_type.ReqM.pure_apply, cpp_type.ReqM.modReq,
            CsTypeTag.ofTypeData, hne, hget, hbl], rfl, rfl, rfl⟩
  · exact ⟨r, by
          simp [cpp_type.cppify_name_il2cpp_recurse, cpp_type.int_preamble,
            cpp_type.ReqM.bind_apply, cpp_type.ReqM.pure_apply, cpp_type.ReqM.modReq,
            CsTypeTag.ofTypeData, hne, hget, hbl], rfl, rfl, rfl⟩
  · exact ⟨r, by
          simp [cpp_type.cppify_name_il2cpp_recurse, cpp_type.int_preamble,
            cpp_type.ReqM.bind_apply, cpp_type.ReqM.pure_apply, cpp_type.ReqM.modReq,
            CsTypeTag.ofTypeData, hne, hget, hbl], rfl, rfl, rfl⟩
  · exact ⟨r.needs_int_include, by
          simp [cpp_type.cppify_name_il2cpp_recurse, cpp_type.int_preamble,
            cpp_type.ReqM.bind_apply, cpp_type.ReqM.pure_apply, cpp_type.ReqM.modReq,
            CsTypeTag.ofTypeData, hne, hget, hbl,
            cpp_type.CppTypeRequirements.needs_int_include,
            cpp_type.CppTypeRequirements.add_def_include], rfl, rfl, rfl⟩
  · exact ⟨r.needs_int_include, by
          simp [cpp_type.cppify_name_il2cpp_recurse, cpp_type.int_preamble,
            cpp_type.ReqM.bind_apply, cpp_type.ReqM.pure_apply, cpp_type.ReqM.modReq,
            CsTypeTag.ofTypeData, hne, hget, hbl,
            cpp_type.CppTypeRequirements.needs_int_include,
            cpp_type.CppTypeRequirements.add_def_include], rfl, rfl, rfl⟩

/-- C4 witness: a deny-listed class reference resolves to `Il2CppObject*`
with the dependency set untouched. -/
theorem c4_witness :
    ∃ r', cpp_type.cppify_name_il2cpp_recurse mdC4 {} selfC8 3 typC4 2 none
        cpp_type.TypeUsage.TypeName cpp_type.CppTypeRequirements.empty =
      some (cpp_type.il2cpp_object_ptr, r') ∧
      r'.depending_types = cpp_type.CppTypeRequirements.empty.depending_types := by
  obtain ⟨r', h1, h2, _, _⟩ := c4_denylist_substitution mdC4 {} selfC8 2 2 none
    cpp_type.TypeUsage.TypeName cpp_type.CppTypeRequirements.empty typC4 2 td0
    (Or.inr (Or.inr (Or.inl rfl))) rfl rfl (by decide) (by decide)
  exact ⟨r', by simpa [typC4] using h1, h2⟩

/-- C5: the include depth is a recursion budget: at depth zero the resolver
is name-only (no dependency tag and no context typedef include recorded),
and in a generic instantiation resolved at depth two the value-typed
argument (resolved at the decremented budget) is recorded as a dependency
while the reference-typed argument (always resolved at depth zero) is not. -/
theorem c5_include_depth_budget :
    (∀ md ctx self fuel typ inst usage (r : cpp_type.CppTypeRequirements) a r',
      cpp_type.cppify_name_il2cpp_recurse md ctx self fuel typ 0 inst usage r = some (a, r') →
      r'.depending_types = r.depending_types ∧
      ∀ c, cpp_type.CppInclude.context_typedef c ∈ r'.required_def_includes ↔
           cpp_type.CppInclude.context_typedef c ∈ r.required_def_includes) ∧
    (∃ p, cpp_type.cppify_name_il2cpp_recurse mdC5 ctxC5 selfC5 5 genInst0 2 none
        cpp_type.TypeUsage.TypeName cpp_type.CppTypeRequirements.empty = some p ∧
      CsTypeTag.TypeDefinitionIndex 1 ∈ p.2.depending_types ∧
      CsTypeTag.TypeDefinitionIndex 3 ∈ p.2.depending_types ∧
      CsTypeTag.GenericInstantiation 3 0 ∈ p.2.depending_types ∧
      CsTypeTag.TypeDefinitionIndex 2 ∉ p.2.depending_types) := by
  constructor
  · intro md ctx self fuel typ inst usage r a r' h
    exact cpp_type.nameonly_cppify_zero md ctx self fuel typ inst usage r a r' h
  · refine ⟨_, rfl, ?_, ?_, ?_, ?_⟩ <;> decide

/-- C5 witness: a depth-zero resolution of a plain class reference records
no dependency. -/
theorem c5_witness :
    ∃ p, cpp_type.cppify_name_il2cpp_recurse mdC5 ctxC5 selfC5 3 typR 0 none
        cpp_type.TypeUsage.FieldName cpp_type.CppTypeRequirements.empty = some p ∧
      p.2.depending_types = (∅ : Finset CsTypeTag) := by
  refine ⟨_, rfl, ?_⟩
  have h := (c5_include_depth_budget.1 mdC5 ctxC5 selfC5 3 typR none
    cpp_type.TypeUsage.FieldName cpp_type.CppTypeRequirements.empty _ _ rfl).1
  exact h.trans rfl

/-- C7: the resolver detects a reference to the type under construction
before recursing and returns its own name components with the accumulator
untouched; consequently a generic instantiation of the type itself with a
reference-typed argument resolves (with finite fuel) to the type's own name
without recording the type as its own dependency. -/
theorem c7_self_reference_short_circuit :
    (∀ md ctx self fuel depth inst usage (r : cpp_type.CppTypeRequirements)
       (typ : Il2CppType),
      (typ.ty = Il2CppTypeEnum.Object ∨ typ.ty = Il2CppTypeEnum.Valuetype ∨
       typ.ty = Il2CppTypeEnum.Class ∨ typ.ty = Il2CppTypeEnum.Typedbyref) →
      CsTypeTag.ofTypeData typ.data = some self.self_tag →
      cpp_type.cppify_name_il2cpp_recurse md ctx self (fuel + 1) typ depth inst usage r =
        some (self.cpp_name_components, r)) ∧
    (∃ p, cpp_type.cppify_name_il2cpp_recurse mdC7 ctxC7 selfC7 5 genInst0 0 none
        cpp_type.TypeUsage.FieldName cpp_type.CppTypeRequirements.empty = some p ∧
      p.1 = { selfC7.cpp_name_components with generics := some ["A*"] } ∧
      p.2.depending_types = (∅ : Finset CsTypeTag) ∧
      selfC7.self_tag ∉ p.2.depending_types) := by
  constructor
  · intro md ctx self fuel depth inst usage r typ hty htag
    obtain ⟨ty, data, vt, br, est, ect, epo⟩ := typ
    simp only at hty htag
    rcases hty with rfl | rfl | rfl | rfl <;>
      simp [cpp_type.cppify_name_il2cpp_recurse, cpp_type.int_preamble,
        cpp_type.ReqM.bind_apply, cpp_type.ReqM.pure_apply, htag]
  · exact ⟨_, rfl, by decide, by decide, by decide⟩

/-- C7 witness: the short circuit at a concrete class reference to the type
under construction. -/
theorem c7_witness :
    cpp_type.cppify_name_il2cpp_recurse mdC7 ctxC7 selfC7 4
        { ty := Il2CppTypeEnum.Class, data := TypeData.TypeDefinitionIndex 0 } 1 none
        cpp_type.TypeUsage.FieldName cpp_type.CppTypeRequirements.empty =
      some (selfC7.cpp_name_components, cpp_type.CppTypeRequirements.empty) :=
  c7_self_reference_short_circuit.1 mdC7 ctxC7 selfC7 3 1 none
    cpp_type.TypeUsage.FieldName cpp_type.CppTypeRequirements.empty
    { ty := Il2CppTypeEnum.Class, data := TypeData.TypeDefinitionIndex 0 }
    (Or.inr (Or.inr (Or.inl rfl))) rfl

/-- C8 counterexample: a full-definition requirement does not supersede a
previously recorded forward-reference-only requirement for the same pair:
after a depth-zero resolution of tdi 1 (forward declare) followed by a
depth-one resolution (typedef include), the requirement set holds both the
typedef include and, still, the forward-declare entry. -/
theorem c8_counterexample :
    ∃ p1 p2,
      cpp_type.cppify_name_il2cpp mdC8 ctxC8 selfC8 3 typC8 0
        cpp_type.TypeUsage.FieldName cpp_type.CppTypeRequirements.empty = some p1 ∧
      cpp_type.cppify_name_il2cpp mdC8 ctxC8 selfC8 3 typC8 1
        cpp_type.TypeUsage.TypeName p1.2 = some p2 ∧
      cpp_type.CppInclude.context_typedef 10 ∈ p2.2.required_def_includes ∧
      (cpp_type.CppForwardDeclare.from_cpp_type (mkLite 1 "B1"),
        cpp_type.CppInclude.context_typedef 10) ∈ p2.2.forward_declares ∧
      CsTypeTag.TypeDefinitionIndex 1 ∈ p2.2.depending_types := by
  refine ⟨_, _, rfl, rfl, ?_, ?_, ?_⟩ <;> decide

/-- C8 (amended): resolution is idempotent: a second resolution of the same
reference from the accumulated requirement set yields the same structured
name and leaves the set unchanged (each requirement is a set element,
recorded at most once); a full-definition include is recorded alongside a
previously recorded forward-reference entry rather than superseding it. -/
theorem c8_resolution_idempotent :
    ∀ md ctx self fuel typ depth usage (r : cpp_type.CppTypeRequirements) n r',
      cpp_type.cppify_name_il2cpp md ctx self fuel typ depth usage r = some (n, r') →
      cpp_type.cppify_name_il2cpp md ctx self fuel typ depth usage r' = some (n, r') := by
  intro md ctx self fuel typ depth usage r n r' h
  unfold cpp_type.cppify_name_il2cpp at h ⊢
  have hA := cpp_type.adds_cppify md ctx self fuel typ depth
    self.generic_instantiations_args_types usage
  rw [hA r] at h
  rw [hA r']
  cases hE : cpp_type.cppify_name_il2cpp_recurse md ctx self fuel typ depth
      self.generic_instantiations_args_types usage cpp_type.CppTypeRequirements.empty with
  | none => rw [hE] at h; cases h
  | some p =>
    obtain ⟨n0, d⟩ := p
    rw [hE] at h
    simp only [Option.map_some'] at h
    have h' := Option.some.inj h
    cases h'
    simp only [Option.map_some']
    rw [cpp_type.union_assoc, cpp_type.union_self]

/-- C8 witness: idempotence at a concrete depth-zero resolution. -/
theorem c8_witness :
    ∃ p, cpp_type.cppify_name_il2cpp mdC8 ctxC8 selfC8 3 typC8 0
        cpp_type.TypeUsage.FieldName cpp_type.CppTypeRequirements.empty = some p ∧
      cpp_type.cppify_name_il2cpp mdC8 ctxC8 selfC8 3 typC8 0
        cpp_type.TypeUsage.FieldName p.2 = some p := by
  refine ⟨_, rfl, ?_⟩
  exact c8_resolution_idempotent mdC8 ctxC8 selfC8 3 typC8 0
    cpp_type.TypeUsage.FieldName cpp_type.CppTypeRequirements.empty _ _ rfl

end Cordl
